import Mathlib

set_option maxRecDepth 100000

/-!
Verification development for the DBGuardian-AI engine layer.

The Python sources under `src/engine/` are shallowly embedded below:
pure functions become Lean functions, Python `float`s become `ℚ`,
Python `int`s become `ℤ`, dictionary rows become structures of
`Option`-valued cells, and fallible conversions (`float(...)`,
`int(...)`) return `Except`.  Rational arithmetic is carried out with
`mkRat`/`Rat.divInt` based helpers (`qAdd`, `qSub`, `qMul`, `qDiv`)
that are proved equal to the ordinary field operations; this keeps
every embedded function kernel-computable.  Python's `round`, string
formatting (`:.Nf`, `:,`), `str.replace`, `str.lstrip` and `%I:%M %p`
time formatting are modelled by the `Py` helpers in this file.
-/

namespace DBG

/-- A Python value as stored in a parsed row: `None`, a number, or a string.
Numbers are modelled as rationals (Python floats/ints collapsed). -/
inductive PyVal where
  | none : PyVal
  | num (q : ℚ) : PyVal
  | str (s : String) : PyVal
  deriving DecidableEq

/-- Python truthiness: `None`, `0` and `""` are falsy. -/
def PyVal.truthy : PyVal → Bool
  | .none => false
  | .num q => q != 0
  | .str s => s != ""

/-- Python `a or b`: returns `a` when truthy, else `b`. -/
def pyOr (a b : PyVal) : PyVal := if a.truthy then a else b

/-- `dict.get(key, default)`: the stored cell when present, else the default. -/
def pyGet (cell : Option PyVal) (dflt : PyVal) : PyVal := cell.getD dflt

/-- Digits of `n` in base 10, least significant first, by fuel recursion
(`fuel = n` always suffices). -/
def natDigitsRevAux : ℕ → ℕ → List ℕ
  | 0, _ => []
  | fuel + 1, n => if n = 0 then [] else n % 10 :: natDigitsRevAux fuel (n / 10)

def natDigitsRev (n : ℕ) : List ℕ := natDigitsRevAux n n

/-- Decimal string of a natural number, as Python prints it. -/
def natStr (n : ℕ) : String :=
  if n = 0 then "0" else String.mk (((natDigitsRev n).map Nat.digitChar).reverse)

/-- Decimal string of an integer, as Python prints it. -/
def intStr (i : ℤ) : String := (if i < 0 then "-" else "") ++ natStr i.natAbs

/-- Left-pad a numeral string with zeros to width `w` (Python `%02d`-style). -/
def padZeros (w : ℕ) (n : ℕ) : String :=
  let s := natStr n
  String.mk (List.replicate (w - s.length) '0') ++ s

/-- Insert thousands separators into a digit list given least significant
first, producing the grouped digits least significant first. -/
def commaGroupAux : List Char → ℕ → List Char
  | [], _ => []
  | c :: rest, i =>
      (if i ≠ 0 ∧ i % 3 = 0 then [c, ','] else [c]) ++ commaGroupAux rest (i + 1)

/-- Python `f"{i:,}"`: decimal string with thousands separators. -/
def intStrComma (i : ℤ) : String :=
  (if i < 0 then "-" else "") ++
    String.mk (commaGroupAux (natStr i.natAbs).data.reverse 0).reverse

/-- Round-half-even of the fraction `a / b` (for `b > 0`), the rounding rule
Python's `round` and `format` use. -/
def rheInt (a b : ℤ) : ℤ :=
  let q := Int.ediv a b
  let r := a - b * q
  if 2 * r < b then q
  else if 2 * r > b then q + 1
  else if q % 2 = 0 then q else q + 1

/-- Round-half-even of `x * scale` to an integer. -/
def rheQ (x : ℚ) (scale : ℤ) : ℤ := rheInt (x.num * scale) x.den

/-- Python `round(x, d)` as a rational. -/
def pyRound (d : ℕ) (x : ℚ) : ℚ := mkRat (rheQ x (10 ^ d)) (10 ^ d)

/-- Python `f"{x:.df}"`: fixed-point formatting with `d` decimals,
round-half-even, sign taken from `x` (so `-0.04` at one decimal is `"-0.0"`). -/
def fmtFixed (d : ℕ) (x : ℚ) : String :=
  let m := (rheQ x (10 ^ d)).natAbs
  (if x < 0 then "-" else "") ++ natStr (m / 10 ^ d) ++ "." ++ padZeros d (m % 10 ^ d)

/-- Python `f"{x*1000:.df}"` (used for millisecond displays): formatting of
`x * 1000` without invoking rational multiplication. -/
def fmtFixedMs (d : ℕ) (x : ℚ) : String :=
  let m := (rheQ x (1000 * 10 ^ d)).natAbs
  (if x < 0 then "-" else "") ++ natStr (m / 10 ^ d) ++ "." ++ padZeros d (m % 10 ^ d)

/-- Python `int(x)` on a float: truncation toward zero. -/
def pyTrunc (q : ℚ) : ℤ := q.num.tdiv q.den

/-- Fractional digits of `num / den` (proper fraction part), at most `fuel`
digits, dropping the tail once the expansion terminates. -/
def fracDigitsAux : ℕ → ℕ → ℕ → List ℕ
  | 0, _, _ => []
  | fuel + 1, r, d => if r = 0 then [] else (r * 10 / d) :: fracDigitsAux fuel (r * 10 % d) d

/-- Python `str(float)` / `f"{x}"` for floats, modelled for rationals with a
terminating decimal expansion (up to 17 digits, the double precision limit):
sign, integer part, and the fractional digits with `"0"` when empty. -/
def pyFloatRepr (q : ℚ) : String :=
  let m := q.num.natAbs
  let frac := fracDigitsAux 17 (m % q.den) q.den
  (if q.num < 0 then "-" else "") ++ natStr (m / q.den) ++ "." ++
    (if frac.isEmpty then "0" else String.mk (frac.map Nat.digitChar))

/-- Python `min` on rationals. -/
def pyMin (a b : ℚ) : ℚ := if a ≤ b then a else b

/-- Python `max` on rationals. -/
def pyMax (a b : ℚ) : ℚ := if a ≤ b then b else a

/-- Rational addition through `mkRat` (kernel-computable; equal to `+`). -/
def qAdd (a b : ℚ) : ℚ := mkRat (a.num * b.den + b.num * a.den) (a.den * b.den)

/-- Rational subtraction through `mkRat` (kernel-computable; equal to `-`). -/
def qSub (a b : ℚ) : ℚ := mkRat (a.num * b.den - b.num * a.den) (a.den * b.den)

/-- Rational multiplication through `mkRat` (kernel-computable; equal to `*`). -/
def qMul (a b : ℚ) : ℚ := mkRat (a.num * b.num) (a.den * b.den)

/-- Rational division through `Rat.divInt` (kernel-computable; equal to `/`,
with Lean's `x / 0 = 0` convention — every embedded use is guarded by a
nonzero test, mirroring Python's `ZeroDivisionError` guards). -/
def qDiv (a b : ℚ) : ℚ := Rat.divInt (a.num * b.den) (a.den * b.num)

theorem qAdd_eq (a b : ℚ) : qAdd a b = a + b := by
  rw [qAdd, Rat.mkRat_eq_div]
  conv_rhs => rw [← Rat.num_div_den a, ← Rat.num_div_den b]
  have ha : ((a.den : ℚ)) ≠ 0 := by exact_mod_cast a.den_nz
  have hb : ((b.den : ℚ)) ≠ 0 := by exact_mod_cast b.den_nz
  push_cast
  field_simp

theorem qSub_eq (a b : ℚ) : qSub a b = a - b := by
  rw [qSub, Rat.mkRat_eq_div]
  conv_rhs => rw [← Rat.num_div_den a, ← Rat.num_div_den b]
  have ha : ((a.den : ℚ)) ≠ 0 := by exact_mod_cast a.den_nz
  have hb : ((b.den : ℚ)) ≠ 0 := by exact_mod_cast b.den_nz
  push_cast
  field_simp
  ring

theorem qMul_eq (a b : ℚ) : qMul a b = a * b := by
  rw [qMul, Rat.mkRat_eq_div]
  conv_rhs => rw [← Rat.num_div_den a, ← Rat.num_div_den b]
  have ha : ((a.den : ℚ)) ≠ 0 := by exact_mod_cast a.den_nz
  have hb : ((b.den : ℚ)) ≠ 0 := by exact_mod_cast b.den_nz
  push_cast
  field_simp

theorem qDiv_eq (a b : ℚ) : qDiv a b = a / b := by
  rcases eq_or_ne b 0 with rfl | hb
  · simp [qDiv, Rat.divInt_eq_div]
  · rw [qDiv, Rat.divInt_eq_div]
    conv_rhs => rw [← Rat.num_div_den a, ← Rat.num_div_den b]
    have ha : ((a.den : ℚ)) ≠ 0 := by exact_mod_cast a.den_nz
    have hbd : ((b.den : ℚ)) ≠ 0 := by exact_mod_cast b.den_nz
    have hbn : ((b.num : ℚ)) ≠ 0 := by exact_mod_cast Rat.num_ne_zero.2 hb
    push_cast
    field_simp

theorem pyMin_eq (a b : ℚ) : pyMin a b = min a b := by
  unfold pyMin
  split
  · exact (min_eq_left (by assumption)).symm
  · exact (min_eq_right (le_of_not_le (by assumption))).symm

theorem pyMax_eq (a b : ℚ) : pyMax a b = max a b := by
  unfold pyMax
  split
  · exact (max_eq_right (by assumption)).symm
  · exact (max_eq_left (le_of_not_le (by assumption))).symm

/-- Substring test (Python `needle in hay`), naive scan over characters. -/
def listContainsSub : List Char → List Char → Bool
  | _, [] => false
  | needle, l@(_ :: rest) =>
      if needle.isPrefixOf l then true else listContainsSub needle rest

/-- `strContains hay needle` is true when `needle` occurs in `hay`
(nonempty needles; the empty needle occurs everywhere). -/
def strContains (hay needle : String) : Bool :=
  needle.data.isEmpty || listContainsSub needle.data hay.data

/-- Python `s.replace(pat, rep)` for a nonempty `pat`: replace every
non-overlapping occurrence, scanning left to right (fuel recursion on the
length of the remaining text). -/
def replaceAux (pat rep : List Char) : ℕ → List Char → List Char
  | _, [] => []
  | 0, l => l
  | fuel + 1, l@(c :: rest) =>
      if pat.isPrefixOf l then rep ++ replaceAux pat rep fuel (l.drop pat.length)
      else c :: replaceAux pat rep fuel rest

def strReplace (s pat rep : String) : String :=
  if pat.data.isEmpty then s
  else String.mk (replaceAux pat.data rep.data s.data.length s.data)

/-- Python `s.lstrip('0')`. -/
def lstripZeros (s : String) : String := String.mk (s.data.dropWhile (· = '0'))

/-!
Embedding of `src/engine/decision_engine.py`.
-/

/-- `SQLCategory` enum. -/
inductive SQLCategory where
  | BATCH_SQL | CHATTY_SQL | IO_BOUND_SQL | CPU_BOUND_SQL
  | MIXED_PROFILE_SQL | LOW_PRIORITY
  deriving DecidableEq

/-- The enum's `.value` string. -/
def SQLCategory.value : SQLCategory → String
  | .BATCH_SQL => "BATCH_SQL"
  | .CHATTY_SQL => "CHATTY_SQL"
  | .IO_BOUND_SQL => "IO_BOUND_SQL"
  | .CPU_BOUND_SQL => "CPU_BOUND_SQL"
  | .MIXED_PROFILE_SQL => "MIXED_PROFILE_SQL"
  | .LOW_PRIORITY => "LOW_PRIORITY"

/-- `ActionType` enum. -/
inductive ActionType where
  | PLAN_ANALYSIS | INDEX_REVIEW | IO_OPTIMIZATION | ACCESS_PATH_OPTIMIZATION
  | JOIN_METHOD_REVIEW | HASH_VS_NESTED_ANALYSIS | SQL_REWRITE
  | BIND_TUNING | SQL_TUNING_ADVISOR | SQL_ACCESS_ADVISOR
  | APPLICATION_THROTTLING | RESULT_CACHING
  | INDEX_CREATION | CPU_TUNING | JOIN_HINTS | INDEX_ONLY_FIXES | APP_THROTTLING
  | MONITOR_ONLY
  deriving DecidableEq

/-- The enum's `.value` string. -/
def ActionType.value : ActionType → String
  | .PLAN_ANALYSIS => "PLAN_ANALYSIS"
  | .INDEX_REVIEW => "INDEX_REVIEW"
  | .IO_OPTIMIZATION => "IO_OPTIMIZATION"
  | .ACCESS_PATH_OPTIMIZATION => "ACCESS_PATH_OPTIMIZATION"
  | .JOIN_METHOD_REVIEW => "JOIN_METHOD_REVIEW"
  | .HASH_VS_NESTED_ANALYSIS => "HASH_VS_NESTED_ANALYSIS"
  | .SQL_REWRITE => "SQL_REWRITE"
  | .BIND_TUNING => "BIND_TUNING"
  | .SQL_TUNING_ADVISOR => "SQL_TUNING_ADVISOR"
  | .SQL_ACCESS_ADVISOR => "SQL_ACCESS_ADVISOR"
  | .APPLICATION_THROTTLING => "APPLICATION_THROTTLING"
  | .RESULT_CACHING => "RESULT_CACHING"
  | .INDEX_CREATION => "INDEX_CREATION"
  | .CPU_TUNING => "CPU_TUNING"
  | .JOIN_HINTS => "JOIN_HINTS"
  | .INDEX_ONLY_FIXES => "INDEX_ONLY_FIXES"
  | .APP_THROTTLING => "APP_THROTTLING"
  | .MONITOR_ONLY => "MONITOR_ONLY"

/-- `NormalizedSignals` dataclass: the normalized signal block per SQL.
Numeric floats are rationals, `executions` an integer; the optional context
fields are Python values defaulting to `None`. -/
structure NormalizedSignals where
  sql_id : String
  executions : ℤ
  total_elapsed : ℚ
  avg_exec_time : ℚ
  cpu_time : ℚ
  cpu_pct : ℚ
  io_wait_pct : ℚ
  db_time_pct : ℚ
  sql_text : PyVal := .none
  sql_module : PyVal := .none
  wait_class : PyVal := .none
  deriving DecidableEq

/-- `DecisionResult` dataclass. -/
structure DecisionResult where
  sql_id : String
  category : SQLCategory
  allowed_actions : List ActionType
  blocked_actions : List ActionType
  reasoning : List String
  signals : NormalizedSignals
  why_shown : List String
  why_hidden : List String
  deriving DecidableEq

/-- Gate thresholds (class constants on `DecisionEngine`). -/
def BATCH_SQL_MIN_AVG_EXEC_TIME : ℚ := 5
def BATCH_SQL_MAX_EXECUTIONS : ℤ := 50
def CHATTY_SQL_MIN_EXECUTIONS : ℤ := 1000
def CHATTY_SQL_MAX_AVG_EXEC_TIME : ℚ := mkRat 1 10
def IO_BOUND_MIN_IO_WAIT_PCT : ℚ := 70
def CPU_BOUND_MIN_CPU_PCT : ℚ := 70
def CPU_BOUND_MAX_IO_WAIT_PCT : ℚ := 30

/-- Gate 1: `avg_exec_time > 5s and executions < 50`. -/
def is_batch_sql (s : NormalizedSignals) : Prop :=
  s.avg_exec_time > BATCH_SQL_MIN_AVG_EXEC_TIME ∧ s.executions < BATCH_SQL_MAX_EXECUTIONS

/-- Gate 2: `executions > 1000 and avg_exec_time < 0.1s`. -/
def is_chatty_sql (s : NormalizedSignals) : Prop :=
  s.executions > CHATTY_SQL_MIN_EXECUTIONS ∧ s.avg_exec_time < CHATTY_SQL_MAX_AVG_EXEC_TIME

/-- Gate 3: `io_wait_pct > 70`. -/
def is_io_bound_sql (s : NormalizedSignals) : Prop :=
  s.io_wait_pct > IO_BOUND_MIN_IO_WAIT_PCT

/-- Gate 4: `cpu_pct > 70 and io_wait_pct < 30`. -/
def is_cpu_bound_sql (s : NormalizedSignals) : Prop :=
  s.cpu_pct > CPU_BOUND_MIN_CPU_PCT ∧ s.io_wait_pct < CPU_BOUND_MAX_IO_WAIT_PCT

/-- Count of concerning traits for the mixed-profile gate. -/
def mixed_concerning_traits (s : NormalizedSignals) : ℕ :=
  (if s.avg_exec_time > 1 then 1 else 0) +
  (if s.executions > 100 then 1 else 0) +
  (if s.io_wait_pct > 40 then 1 else 0) +
  (if s.cpu_pct > 40 then 1 else 0) +
  (if s.db_time_pct > 10 then 1 else 0)

/-- Mixed profile gate: at least 3 concerning traits. -/
def is_mixed_profile_sql (s : NormalizedSignals) : Prop :=
  mixed_concerning_traits s ≥ 3

instance (s : NormalizedSignals) : Decidable (is_batch_sql s) := by
  unfold is_batch_sql; infer_instance
instance (s : NormalizedSignals) : Decidable (is_chatty_sql s) := by
  unfold is_chatty_sql; infer_instance
instance (s : NormalizedSignals) : Decidable (is_io_bound_sql s) := by
  unfold is_io_bound_sql; infer_instance
instance (s : NormalizedSignals) : Decidable (is_cpu_bound_sql s) := by
  unfold is_cpu_bound_sql; infer_instance
instance (s : NormalizedSignals) : Decidable (is_mixed_profile_sql s) := by
  unfold is_mixed_profile_sql; infer_instance

/-- `DecisionEngine._create_batch_sql_decision`. -/
def create_batch_sql_decision (s : NormalizedSignals) : DecisionResult :=
  { sql_id := s.sql_id
    category := .BATCH_SQL
    allowed_actions := [.PLAN_ANALYSIS, .INDEX_REVIEW, .IO_OPTIMIZATION,
      .SQL_ACCESS_ADVISOR, .SQL_REWRITE]
    blocked_actions := [.BIND_TUNING, .APP_THROTTLING, .APPLICATION_THROTTLING,
      .RESULT_CACHING]
    reasoning :=
      [ "Slow per execution (" ++ fmtFixed 2 s.avg_exec_time ++ "s > 5s threshold)",
        "Low frequency (" ++ intStr s.executions ++ " executions < 50 threshold)",
        "Pattern indicates batch/report SQL workload",
        "Focus on query efficiency, not application throttling" ]
    signals := s
    why_shown :=
      [ "avg_exec_time = " ++ fmtFixed 2 s.avg_exec_time ++ "s (>5s)",
        "executions = " ++ intStr s.executions ++ " (<50)",
        "total_elapsed = " ++ fmtFixed 1 s.total_elapsed ++ "s" ] ++
      (if s.io_wait_pct > 30 then
        [ "io_wait_pct = " ++ fmtFixed 1 s.io_wait_pct ++ "%" ] else [])
    why_hidden :=
      [ "Bind tuning skipped: low execution frequency makes cursor sharing irrelevant",
        "Application throttling skipped: not applicable for batch/report SQL",
        "Result caching skipped: low frequency means minimal cache hit benefit" ] }

/-- `DecisionEngine._create_chatty_sql_decision`. -/
def create_chatty_sql_decision (s : NormalizedSignals) : DecisionResult :=
  { sql_id := s.sql_id
    category := .CHATTY_SQL
    allowed_actions := [.APPLICATION_THROTTLING, .RESULT_CACHING, .BIND_TUNING]
    blocked_actions := [.INDEX_CREATION, .SQL_TUNING_ADVISOR, .SQL_ACCESS_ADVISOR,
      .PLAN_ANALYSIS, .SQL_REWRITE]
    reasoning :=
      [ "Fast per execution (" ++ fmtFixed 4 s.avg_exec_time ++ "s < 0.1s)",
        "Extremely high frequency (" ++ intStrComma s.executions ++ " executions > 1000)",
        "Pattern indicates OLTP/chatty SQL - application design issue",
        "Individual query is efficient but cumulative overhead is the problem" ]
    signals := s
    why_shown :=
      [ "executions = " ++ intStrComma s.executions ++ " (>1000)",
        "avg_exec_time = " ++ fmtFixed 4 s.avg_exec_time ++ "s (<0.1s)",
        "Cumulative impact despite fast individual execution" ]
    why_hidden :=
      [ "Index creation skipped: query already executes fast enough",
        "SQL Tuning Advisor skipped: query is already efficient",
        "SQL Access Advisor skipped: no structural changes needed",
        "Plan analysis skipped: execution plan is not the bottleneck" ] }

/-- `DecisionEngine._create_io_bound_decision`. -/
def create_io_bound_decision (s : NormalizedSignals) : DecisionResult :=
  { sql_id := s.sql_id
    category := .IO_BOUND_SQL
    allowed_actions := [.INDEX_REVIEW, .INDEX_CREATION, .ACCESS_PATH_OPTIMIZATION,
      .SQL_ACCESS_ADVISOR, .IO_OPTIMIZATION]
    blocked_actions := [.CPU_TUNING, .JOIN_HINTS, .HASH_VS_NESTED_ANALYSIS]
    reasoning :=
      [ "High IO wait (" ++ fmtFixed 1 s.io_wait_pct ++ "% > 70% threshold)",
        "Query spending most time waiting for data retrieval",
        "Focus on reducing physical I/O through better access paths",
        "Index optimization likely to provide significant improvement" ]
    signals := s
    why_shown :=
      [ "io_wait_pct = " ++ fmtFixed 1 s.io_wait_pct ++ "% (>70%)",
        "total_elapsed = " ++ fmtFixed 1 s.total_elapsed ++ "s",
        "cpu_pct = " ++ fmtFixed 1 s.cpu_pct ++ "% (low - confirms IO bottleneck)" ]
    why_hidden :=
      [ "CPU tuning skipped: CPU is not the bottleneck",
        "Join hints skipped: join method changes unlikely to reduce IO",
        "Hash vs Nested analysis skipped: IO access path is the issue, not join method" ] }

/-- `DecisionEngine._create_cpu_bound_decision`. -/
def create_cpu_bound_decision (s : NormalizedSignals) : DecisionResult :=
  { sql_id := s.sql_id
    category := .CPU_BOUND_SQL
    allowed_actions := [.JOIN_METHOD_REVIEW, .HASH_VS_NESTED_ANALYSIS, .SQL_REWRITE,
      .PLAN_ANALYSIS, .SQL_TUNING_ADVISOR]
    blocked_actions := [.INDEX_ONLY_FIXES, .IO_OPTIMIZATION, .ACCESS_PATH_OPTIMIZATION]
    reasoning :=
      [ "High CPU consumption (" ++ fmtFixed 1 s.cpu_pct ++ "% > 70% threshold)",
        "Low IO wait (" ++ fmtFixed 1 s.io_wait_pct ++ "% < 30% threshold)",
        "Query retrieving data efficiently but processing inefficiently",
        "Focus on join methods, aggregations, and computational logic" ]
    signals := s
    why_shown :=
      [ "cpu_pct = " ++ fmtFixed 1 s.cpu_pct ++ "% (>70%)",
        "io_wait_pct = " ++ fmtFixed 1 s.io_wait_pct ++ "% (<30%)",
        "cpu_time = " ++ fmtFixed 1 s.cpu_time ++ "s" ]
    why_hidden :=
      [ "Index-only fixes skipped: data access is already efficient",
        "IO optimization skipped: IO is not the bottleneck",
        "Access path optimization skipped: physical reads are not the issue" ] }

/-- `DecisionEngine._create_mixed_profile_decision`.  The Python builds
`allowed` and then applies `list(set(allowed))`; the model removes later
duplicates keeping first occurrences (the built list never holds
duplicates, so only the membership set matters). -/
def create_mixed_profile_decision (s : NormalizedSignals) : DecisionResult :=
  { sql_id := s.sql_id
    category := .MIXED_PROFILE_SQL
    allowed_actions :=
      ([.PLAN_ANALYSIS, .SQL_TUNING_ADVISOR] ++
        (if s.io_wait_pct > 40 then [.INDEX_REVIEW, .ACCESS_PATH_OPTIMIZATION] else []) ++
        (if s.cpu_pct > 40 then [.JOIN_METHOD_REVIEW, .SQL_REWRITE] else []) ++
        (if s.executions > 500 then [.BIND_TUNING, .RESULT_CACHING] else []) :
          List ActionType).eraseDups
    blocked_actions := []
    reasoning :=
      [ "SQL shows multiple concerning characteristics",
        "Moderate execution time (" ++ fmtFixed 2 s.avg_exec_time ++ "s/exec)",
        "Mixed IO (" ++ fmtFixed 1 s.io_wait_pct ++ "%) and CPU (" ++
          fmtFixed 1 s.cpu_pct ++ "%) profile",
        "Comprehensive analysis recommended" ]
    signals := s
    why_shown :=
      [ "avg_exec_time = " ++ fmtFixed 2 s.avg_exec_time ++ "s",
        "executions = " ++ intStr s.executions,
        "io_wait_pct = " ++ fmtFixed 1 s.io_wait_pct ++ "%",
        "cpu_pct = " ++ fmtFixed 1 s.cpu_pct ++ "%",
        "db_time_pct = " ++ fmtFixed 1 s.db_time_pct ++ "%" ]
    why_hidden :=
      [ "No actions explicitly blocked for mixed profile SQL",
        "Comprehensive investigation needed to identify root cause" ] }

/-- `DecisionEngine._create_low_priority_decision`. -/
def create_low_priority_decision (s : NormalizedSignals) : DecisionResult :=
  { sql_id := s.sql_id
    category := .LOW_PRIORITY
    allowed_actions := [.MONITOR_ONLY]
    blocked_actions := [.INDEX_CREATION, .SQL_TUNING_ADVISOR, .SQL_ACCESS_ADVISOR,
      .SQL_REWRITE, .PLAN_ANALYSIS, .APPLICATION_THROTTLING]
    reasoning :=
      [ "No tuning justified by current workload behavior",
        "Average execution time (" ++ fmtFixed 3 s.avg_exec_time ++ "s) is acceptable",
        "Execution frequency (" ++ intStr s.executions ++ ") is not concerning",
        "SQL does not meet any problem criteria - continue monitoring" ]
    signals := s
    why_shown :=
      [ "avg_exec_time = " ++ fmtFixed 3 s.avg_exec_time ++ "s (acceptable)",
        "executions = " ++ intStr s.executions ++ " (not excessive)",
        "io_wait_pct = " ++ fmtFixed 1 s.io_wait_pct ++ "% (within range)",
        "cpu_pct = " ++ fmtFixed 1 s.cpu_pct ++ "% (within range)" ]
    why_hidden :=
      [ "All tuning actions skipped: workload characteristics do not justify intervention",
        "SQL Tuning Advisor skipped: no performance problem detected",
        "Index creation skipped: access patterns are efficient",
        "Query rewrite skipped: query structure is acceptable" ] }

/-- `DecisionEngine.evaluate`: the ordered decision gates. -/
def evaluate (s : NormalizedSignals) : DecisionResult :=
  if is_batch_sql s then create_batch_sql_decision s
  else if is_chatty_sql s then create_chatty_sql_decision s
  else if is_io_bound_sql s then create_io_bound_decision s
  else if is_cpu_bound_sql s then create_cpu_bound_decision s
  else if is_mixed_profile_sql s then create_mixed_profile_decision s
  else create_low_priority_decision s

/-- `DecisionEngine.is_action_allowed`. -/
def is_action_allowed (d : DecisionResult) (a : ActionType) : Prop :=
  a ∈ d.allowed_actions

/-!
Embedding of `SignalNormalizer.normalize_from_rca` (decision_engine.py).
-/

/-- Value of a nonempty digit string. -/
def digitsToNat (l : List Char) : ℕ :=
  l.foldl (fun acc c => acc * 10 + (c.toNat - 48)) 0

/-- Parse an unsigned decimal literal (`"12"`, `"12.5"`, `"1."`, `".5"`),
the plain-decimal fragment of what Python's `float()` accepts. -/
def parseUnsignedDec (l : List Char) : Option ℚ :=
  let ds := l.takeWhile Char.isDigit
  let rest := l.drop ds.length
  match rest with
  | [] => if ds.isEmpty then none else some ((digitsToNat ds : ℤ) : ℚ)
  | '.' :: fs =>
      if fs.all Char.isDigit ∧ (¬ ds.isEmpty ∨ ¬ fs.isEmpty) then
        some (mkRat (digitsToNat (ds ++ fs)) (10 ^ fs.length))
      else none
  | _ => none

/-- Parse a signed decimal literal. -/
def parseSignedDec : List Char → Option ℚ
  | '-' :: rest => (parseUnsignedDec rest).map Neg.neg
  | '+' :: rest => parseUnsignedDec rest
  | l => parseUnsignedDec l

/-- Python `float(v)`: numbers pass through, decimal strings parse, anything
else (`None`, non-numeric strings) raises. -/
def pyFloat : PyVal → Except String ℚ
  | .num q => .ok q
  | .str s =>
      match parseSignedDec s.data with
      | some q => .ok q
      | Option.none => .error "ValueError: could not convert string to float"
  | .none => .error "TypeError: float() argument must not be None"

/-- Parse a signed integer literal. -/
def parseSignedInt : List Char → Option ℤ
  | '-' :: rest =>
      if rest ≠ [] ∧ rest.all Char.isDigit then some (-(digitsToNat rest : ℤ)) else none
  | '+' :: rest =>
      if rest ≠ [] ∧ rest.all Char.isDigit then some (digitsToNat rest : ℤ) else none
  | l => if l ≠ [] ∧ l.all Char.isDigit then some (digitsToNat l : ℤ) else none

/-- Python `int(v)`: floats truncate toward zero, integer-literal strings
parse, anything else raises. -/
def pyInt : PyVal → Except String ℤ
  | .num q => .ok (pyTrunc q)
  | .str s =>
      match parseSignedInt s.data with
      | some i => .ok i
      | Option.none => .error "ValueError: invalid literal for int()"
  | .none => .error "TypeError: int() argument must not be None"

/-- Python numeric comparison `v > t`, raising on non-numbers. -/
def pyGtNum (v : PyVal) (t : ℚ) : Except String Bool :=
  match v with
  | .num q => .ok (decide (q > t))
  | .str _ => .error "TypeError: not supported between str and int"
  | .none => .error "TypeError: not supported between NoneType and int"

/-- A raw RCA SQL row: the dictionary cells `normalize_from_rca` reads.
`Option.none` models an absent key; `sql_id` cells are plain strings. -/
structure RcaRow where
  sql_id : Option String := Option.none
  executions : Option PyVal := Option.none
  elapsed : Option PyVal := Option.none
  elapsed_time : Option PyVal := Option.none
  total_elapsed : Option PyVal := Option.none
  cpu : Option PyVal := Option.none
  cpu_time : Option PyVal := Option.none
  elapsed_per_exec : Option PyVal := Option.none
  pctcpu : Option PyVal := Option.none
  pctio : Option PyVal := Option.none
  pcttotal : Option PyVal := Option.none
  db_time_pct : Option PyVal := Option.none
  sql_text : Option PyVal := Option.none
  sql_module : Option PyVal := Option.none
  wait_class : Option PyVal := Option.none
  deriving DecidableEq

/-- A wait-event row as read by the enrichment loop. -/
structure WaitEventRow where
  pct_of_db_time : Option PyVal := Option.none
  wait_class : Option PyVal := Option.none
  deriving DecidableEq

/-- The enrichment loop: first wait event with `pct_of_db_time > 20`
contributes its `wait_class`. -/
def findWaitClass : List WaitEventRow → Except String (Option PyVal)
  | [] => .ok Option.none
  | we :: rest => do
      let b ← pyGtNum (pyGet we.pct_of_db_time (.num 0)) 20
      if b then pure (some (pyGet we.wait_class .none)) else findWaitClass rest

/-- `SignalNormalizer.normalize_from_rca` (the unused `ash_analysis`
parameter of the source is omitted). -/
def normalize_from_rca (sql_data : RcaRow) (wait_events : List WaitEventRow := []) :
    Except String NormalizedSignals := do
  let sql_id := sql_data.sql_id.getD "UNKNOWN"
  let executions ← pyInt (pyOr (pyGet sql_data.executions (.num 0)) (.num 0))
  let total_elapsed ← pyFloat (pyOr (pyGet sql_data.elapsed (.num 0))
    (pyOr (pyGet sql_data.elapsed_time (.num 0))
      (pyOr (pyGet sql_data.total_elapsed (.num 0)) (.num 0))))
  let cpu_time ← pyFloat (pyOr (pyGet sql_data.cpu (.num 0))
    (pyOr (pyGet sql_data.cpu_time (.num 0)) (.num 0)))
  let avg_exec_time ←
    if executions > 0 ∧ total_elapsed > 0 then
      pure (qDiv total_elapsed ((executions : ℤ) : ℚ))
    else
      pyFloat (pyOr (pyGet sql_data.elapsed_per_exec (.num 0)) (.num 0))
  let cpu_pct0 ← pyFloat (pyOr (pyGet sql_data.pctcpu (.num 0)) (.num 0))
  let cpu_pct :=
    if cpu_pct0 = 0 ∧ total_elapsed > 0 ∧ cpu_time > 0 then
      qMul (qDiv cpu_time total_elapsed) 100
    else cpu_pct0
  let io_wait_pct0 ← pyFloat (pyOr (pyGet sql_data.pctio (.num 0)) (.num 0))
  let io_wait_pct :=
    if io_wait_pct0 = 0 ∧ total_elapsed > 0 ∧ cpu_time ≥ 0 then
      let non_cpu_time := pyMax 0 (qSub total_elapsed cpu_time)
      if total_elapsed > 0 then qMul (qDiv non_cpu_time total_elapsed) 100 else 0
    else io_wait_pct0
  let db_time_pct ← pyFloat (pyOr (pyGet sql_data.pcttotal (.num 0))
    (pyOr (pyGet sql_data.db_time_pct (.num 0)) (.num 0)))
  let sql_text := pyGet sql_data.sql_text .none
  let sql_module := pyGet sql_data.sql_module .none
  let wait_class0 := pyGet sql_data.wait_class .none
  let wait_class ←
    if wait_events ≠ [] ∧ ¬ wait_class0.truthy then do
      let found ← findWaitClass wait_events
      pure (found.getD wait_class0)
    else pure wait_class0
  pure
    { sql_id := sql_id
      executions := executions
      total_elapsed := total_elapsed
      avg_exec_time := avg_exec_time
      cpu_time := cpu_time
      cpu_pct := cpu_pct
      io_wait_pct := io_wait_pct
      db_time_pct := db_time_pct
      sql_text := sql_text
      sql_module := sql_module
      wait_class := wait_class }

/-!
Embedding of `src/engine/dynamic_sql_generator.py` — everything reachable
from `DynamicSQLGenerator.generate_all` (the legacy command generators and
the action-plan builders are not called from `generate_all` and are left
out; `_log_generation` only mutates an audit log and is omitted).
-/

/-- `GeneratedSQL`: a dynamically generated SQL command with metadata. -/
structure GeneratedSQL where
  action : String
  sql : String
  intent : String
  explanation : String
  category : String
  signal_fingerprint : String
  deriving DecidableEq

/-- `DynamicSQLGenerator._create_signal_fingerprint`. -/
def create_signal_fingerprint (s : NormalizedSignals) : String :=
  "exec=" ++ intStr s.executions ++ "|avgtime=" ++ fmtFixed 4 s.avg_exec_time ++
    "|cpu=" ++ fmtFixed 1 s.cpu_pct ++ "|io=" ++ fmtFixed 1 s.io_wait_pct

/-- `DynamicSQLGenerator._generate_task_suffix`:
`f"{int(total_elapsed)}_{int(io_wait_pct)}io_{int(cpu_pct)}cpu"`. -/
def generate_task_suffix (s : NormalizedSignals) : String :=
  intStr (pyTrunc s.total_elapsed) ++ "_" ++ intStr (pyTrunc s.io_wait_pct) ++
    "io_" ++ intStr (pyTrunc s.cpu_pct) ++ "cpu"

/-- `DynamicSQLGenerator._calculate_advisor_time_limit`. -/
def calculate_advisor_time_limit (s : NormalizedSignals) : ℤ :=
  if s.total_elapsed > 500 ∨ s.io_wait_pct > 90 then 600
  else if s.total_elapsed > 100 ∨ s.io_wait_pct > 70 then 300
  else if s.avg_exec_time > 10 then 180
  else 60

/-- `DynamicSQLGenerator._determine_analysis_scope`. -/
def determine_analysis_scope (s : NormalizedSignals) : String :=
  if s.io_wait_pct > 80 then "FULL"
  else if s.io_wait_pct > 50 then "INDEX_ONLY"
  else if s.cpu_pct > 70 then "PARTITION_ONLY"
  else "COMPREHENSIVE"

/-- `DynamicSQLGenerator._determine_workload_scope`. -/
def determine_workload_scope (s : NormalizedSignals) : String :=
  if s.executions < 10 then "LIMITED"
  else if s.executions > 100 then "COMPREHENSIVE"
  else "STANDARD"

/-- `DynamicSQLGenerator._get_category_base_format`. -/
def get_category_base_format (category : SQLCategory) : List String :=
  match category with
  | .BATCH_SQL => ["ALLSTATS LAST"]
  | .CHATTY_SQL => ["BASIC"]
  | .IO_BOUND_SQL => ["ALLSTATS LAST", "+IOSTATS"]
  | .CPU_BOUND_SQL => ["ALLSTATS LAST", "+COST", "+PREDICATE"]
  | .MIXED_PROFILE_SQL => ["ALLSTATS LAST", "+COST"]
  | .LOW_PRIORITY => ["BASIC"]

/-- `DynamicSQLGenerator._add_unique`. -/
def add_unique (parts : List String) (item : String) : List String :=
  if item ∈ parts then parts else parts ++ [item]

/-- The Oracle format-option ordering used by `_assemble_format_string`. -/
def format_option_order : List String :=
  [ "BASIC", "TYPICAL", "ALLSTATS", "ALLSTATS LAST",
    "+COST", "+PREDICATE", "+PROJECTION", "+ALIAS",
    "+IOSTATS", "+MEMSTATS", "+PARALLEL", "+PARTITION",
    "+PEEKED_BINDS", "+ADAPTIVE", "+BIND_AWARE", "+OUTLINE" ]

/-- `sort_key`: index in the order list, end for unrecognized items. -/
def format_sort_key (item : String) : ℕ := format_option_order.indexOf item

/-- Stable ascending insertion by key (the behaviour of Python `sorted`). -/
def insert_by_key_asc (key : String → ℕ) (x : String) : List String → List String
  | [] => [x]
  | y :: ys => if key x < key y then x :: y :: ys else y :: insert_by_key_asc key x ys

def sort_by_key_asc (key : String → ℕ) (l : List String) : List String :=
  l.foldl (fun acc x => insert_by_key_asc key x acc) []

/-- `DynamicSQLGenerator._assemble_format_string`. -/
def assemble_format_string (parts : List String) : String :=
  String.intercalate " " (sort_by_key_asc format_sort_key parts)

/-- `DynamicSQLGenerator._generate_dynamic_xplan`: format string and
explanation assembled from the signals, fingerprint embedded in the SQL. -/
def generate_dynamic_xplan (s : NormalizedSignals) (category : SQLCategory) :
    GeneratedSQL :=
  let fp0 := get_category_base_format category
  let ep0 : List String := []
  -- IO wait threshold analysis
  let st1 : List String × List String :=
    if s.io_wait_pct ≥ 90 then
      (add_unique (add_unique (add_unique fp0 "+IOSTATS") "+PARALLEL") "+PARTITION",
        ep0 ++ ["io_wait_pct=" ++ fmtFixed 1 s.io_wait_pct ++ "% (CRITICAL)"])
    else if s.io_wait_pct ≥ 70 then
      (add_unique (add_unique fp0 "+IOSTATS") "+PARALLEL",
        ep0 ++ ["io_wait_pct=" ++ fmtFixed 1 s.io_wait_pct ++ "% (HIGH)"])
    else if s.io_wait_pct ≥ 50 then
      (add_unique fp0 "+IOSTATS",
        ep0 ++ ["io_wait_pct=" ++ fmtFixed 1 s.io_wait_pct ++ "% (MODERATE)"])
    else if s.io_wait_pct ≥ 30 then
      (if category = .BATCH_SQL then
        (add_unique fp0 "+IOSTATS",
          ep0 ++ ["io_wait_pct=" ++ fmtFixed 1 s.io_wait_pct ++ "% (batch context)"])
      else (fp0, ep0))
    else (fp0, ep0)
  -- CPU threshold analysis
  let st2 : List String × List String :=
    if s.cpu_pct ≥ 90 then
      (add_unique (add_unique (add_unique st1.1 "+COST") "+PREDICATE") "+PROJECTION",
        st1.2 ++ ["cpu_pct=" ++ fmtFixed 1 s.cpu_pct ++ "% (CRITICAL)"])
    else if s.cpu_pct ≥ 70 then
      (add_unique (add_unique st1.1 "+COST") "+PREDICATE",
        st1.2 ++ ["cpu_pct=" ++ fmtFixed 1 s.cpu_pct ++ "% (HIGH)"])
    else if s.cpu_pct ≥ 50 then
      (add_unique st1.1 "+COST",
        st1.2 ++ ["cpu_pct=" ++ fmtFixed 1 s.cpu_pct ++ "% (MODERATE)"])
    else if s.cpu_pct ≥ 30 then
      (if category = .BATCH_SQL ∨ category = .CPU_BOUND_SQL then
        (add_unique st1.1 "+COST",
          st1.2 ++ ["cpu_pct=" ++ fmtFixed 1 s.cpu_pct ++ "%"])
      else st1)
    else st1
  -- Execution frequency analysis
  let st3 : List String × List String :=
    if s.executions ≥ 5000 then
      (add_unique (add_unique (add_unique st2.1 "+PEEKED_BINDS") "+ADAPTIVE") "+BIND_AWARE",
        st2.2 ++ ["executions=" ++ intStrComma s.executions ++ " (VERY HIGH)"])
    else if s.executions ≥ 1000 then
      (add_unique (add_unique st2.1 "+PEEKED_BINDS") "+ADAPTIVE",
        st2.2 ++ ["executions=" ++ intStrComma s.executions ++ " (HIGH)"])
    else if s.executions ≥ 500 then
      (add_unique st2.1 "+PEEKED_BINDS",
        st2.2 ++ ["executions=" ++ intStr s.executions])
    else if s.executions < 50 then
      (if s.avg_exec_time ≥ 5 then
        (add_unique (add_unique st2.1 "+OUTLINE") "+ALIAS",
          st2.2 ++ ["executions=" ++ intStr s.executions ++ " (batch pattern)"])
      else st2)
    else st2
  -- Elapsed time analysis
  let st4 : List String × List String :=
    if s.total_elapsed ≥ 500 then
      (add_unique (add_unique st3.1 "+MEMSTATS") "+PARALLEL",
        st3.2 ++ ["total_elapsed=" ++ fmtFixed 1 s.total_elapsed ++ "s (VERY HIGH)"])
    else if s.total_elapsed ≥ 100 then
      ((if category = .BATCH_SQL then
          add_unique (add_unique st3.1 "+MEMSTATS") "+PARALLEL"
        else add_unique st3.1 "+MEMSTATS"),
        st3.2 ++ ["total_elapsed=" ++ fmtFixed 1 s.total_elapsed ++ "s"])
    else if s.total_elapsed ≥ 50 then
      (add_unique st3.1 "+MEMSTATS",
        st3.2 ++ ["total_elapsed=" ++ fmtFixed 1 s.total_elapsed ++ "s"])
    else st3
  -- Avg exec time analysis
  let st5 : List String × List String :=
    if s.avg_exec_time ≥ 30 then
      (add_unique st4.1 "+OUTLINE",
        st4.2 ++ ["avg_exec=" ++ fmtFixed 2 s.avg_exec_time ++ "s (SLOW)"])
    else if s.avg_exec_time ≥ 10 then
      (add_unique st4.1 "+OUTLINE",
        st4.2 ++ ["avg_exec=" ++ fmtFixed 2 s.avg_exec_time ++ "s"])
    else if s.avg_exec_time < mkRat 1 10 ∧ s.executions > 500 then
      (st4.1, st4.2 ++ ["avg_exec=" ++ fmtFixedMs 1 s.avg_exec_time ++ "ms (fast, high freq)"])
    else st4
  let format_string := assemble_format_string st5.1
  let fingerprint := create_signal_fingerprint s
  let sql :=
    ("-- Dynamic XPLAN for " ++ category.value ++ "\n-- ") ++
    ("Signal Fingerprint: " ++ fingerprint) ++
    ("\n-- Format assembled from: io=" ++ fmtFixed 1 s.io_wait_pct ++ "%, cpu=" ++
      fmtFixed 1 s.cpu_pct ++ "%, exec=" ++ intStr s.executions ++
    "\nSELECT *\nFROM TABLE(\n  DBMS_XPLAN.DISPLAY_CURSOR(\n    sql_id => '" ++
      s.sql_id ++ "',\n    cursor_child_no => NULL,\n    format => '" ++
      format_string ++ "'\n  )\n)")
  let explanation :=
    if st5.2 ≠ [] then "Generated because " ++ String.intercalate ", " st5.2
    else "Base analysis for " ++ category.value
  { action := "PLAN_ANALYSIS"
    sql := sql
    intent := "Analyze execution plan for " ++ s.sql_id ++ " with " ++
      category.value ++ "-optimized format"
    explanation := explanation
    category := category.value
    signal_fingerprint := fingerprint }

/-- `_generate_access_advisor_io_focused`: IO-focused Access Advisor task. -/
def generate_access_advisor_io_focused (s : NormalizedSignals) : GeneratedSQL :=
  let task_suffix := generate_task_suffix s
  let task_name := "IO_ADV_" ++ s.sql_id ++ "_" ++ task_suffix
  let focus_mode := if s.io_wait_pct ≥ 90 then "INDEX"
    else if s.io_wait_pct ≥ 70 then "INDEX_PARTITION" else "COMPREHENSIVE"
  let storage_analysis := if s.io_wait_pct ≥ 90 then "TRUE"
    else if s.io_wait_pct ≥ 70 then "TRUE" else "FALSE"
  let recommendations_limit : ℤ := if s.io_wait_pct ≥ 90 then 20
    else if s.io_wait_pct ≥ 70 then 15 else 10
  let time_limit := calculate_advisor_time_limit s
  let sql :=
    ("-- SQL Access Advisor (IO-Focused) for SQL_ID: " ++ s.sql_id ++
    "\n-- IO Severity: " ++ fmtFixed 1 s.io_wait_pct ++ "% | Focus Mode: " ++ focus_mode ++
    "\n-- Signal Context: cpu=" ++ fmtFixed 1 s.cpu_pct ++ "%, elapsed=" ++
      fmtFixed 1 s.total_elapsed ++ "s, exec=" ++ intStr s.executions ++
    "\n\nDECLARE\n  v_task_name VARCHAR2(128) := '" ++ task_name ++ "';" ++
    "\n  v_task_id   NUMBER;\nBEGIN" ++
    "\n  -- Create Access Advisor task focused on IO reduction" ++
    "\n  DBMS_ADVISOR.CREATE_TASK(\n    advisor_name => 'SQL Access Advisor'," ++
    "\n    task_name    => v_task_name,\n    task_id      => v_task_id\n  );\n  " ++
    "\n  -- Set IO-focused analysis parameters" ++
    "\n  DBMS_ADVISOR.SET_TASK_PARAMETER(\n    task_name => v_task_name," ++
    "\n    parameter => 'MODE',\n    value     => 'COMPREHENSIVE'\n  );\n  " ++
    "\n  DBMS_ADVISOR.SET_TASK_PARAMETER(\n    task_name => v_task_name," ++
    "\n    parameter => 'ANALYSIS_SCOPE'," ++
    "\n    value     => 'FULL'  -- Full analysis for IO-bound SQL\n  );\n  " ++
    "\n  DBMS_ADVISOR.SET_TASK_PARAMETER(\n    task_name => v_task_name," ++
    "\n    parameter => 'TIME_LIMIT',") ++
    ("\n    value     => " ++ intStr time_limit) ++
    ("  -- " ++ intStr (Int.ediv time_limit 60) ++ " min based on " ++
      fmtFixed 1 s.io_wait_pct ++ "% IO wait\n  );\n  " ++
    "\n  DBMS_ADVISOR.SET_TASK_PARAMETER(\n    task_name => v_task_name," ++
    "\n    parameter => 'STORAGE_CHANGE',\n    value     => '" ++ storage_analysis ++
      "'  -- Storage analysis for IO-bound\n  );\n  " ++
    "\n  DBMS_OUTPUT.PUT_LINE('IO-focused Access Advisor task created: ' || v_task_name);" ++
    "\n  DBMS_OUTPUT.PUT_LINE('Focus: " ++ focus_mode ++ " | Time limit: " ++
      intStr time_limit ++ "s');\nEND;\n/\n" ++
    "\n-- Execute and get IO-reduction recommendations" ++
    "\nEXEC DBMS_ADVISOR.EXECUTE_TASK('" ++ task_name ++ "');\n" ++
    "\n-- View IO-specific recommendations (prioritized by benefit)" ++
    "\nSELECT \n  rec_id,\n  rank,\n  benefit AS estimated_benefit,\n  benefit_type," ++
    "\n  action_type,\n  message,\n  CASE \n    WHEN benefit > 50 THEN 'HIGH_VALUE'" ++
    "\n    WHEN benefit > 20 THEN 'MODERATE_VALUE'\n    ELSE 'LOW_VALUE'" ++
    "\n  END AS value_assessment\nFROM DBA_ADVISOR_RECOMMENDATIONS" ++
    "\nWHERE task_name = '" ++ task_name ++ "'\nORDER BY benefit DESC" ++
    "\nFETCH FIRST " ++ intStr recommendations_limit ++ " ROWS ONLY;\n" ++
    "\n-- Get detailed action information for implementation" ++
    "\nSELECT \n  a.rec_id,\n  a.command,\n  a.attr1 AS schema_name," ++
    "\n  a.attr2 AS object_name,\n  a.attr3 AS object_type,\n  a.attr4 AS column_info," ++
    "\n  r.benefit\nFROM DBA_ADVISOR_ACTIONS a\nJOIN DBA_ADVISOR_RECOMMENDATIONS r " ++
    "\n  ON a.task_name = r.task_name AND a.rec_id = r.rec_id" ++
    "\nWHERE a.task_name = '" ++ task_name ++ "'" ++
    "\n  AND r.benefit > 10  -- Only show beneficial recommendations" ++
    "\nORDER BY r.benefit DESC;")
  { action := "SQL_ACCESS_ADVISOR"
    sql := sql
    intent := "Run IO-focused Access Advisor for " ++ s.sql_id ++ " (" ++
      fmtFixed 1 s.io_wait_pct ++ "% IO wait)"
    explanation := "Generated because io_wait_pct=" ++ fmtFixed 1 s.io_wait_pct ++
      "% requires access path optimization, elapsed=" ++ fmtFixed 1 s.total_elapsed ++ "s"
    category := SQLCategory.IO_BOUND_SQL.value
    signal_fingerprint := create_signal_fingerprint s }

/-- The `OBJECT_IO_ANALYSIS` artifact of
`_generate_io_bound_commands_dba_style` (a local literal in the source,
hoisted to a definition). -/
def io_object_cmd (s : NormalizedSignals) (decision : DecisionResult) : GeneratedSQL :=
  let fingerprint := create_signal_fingerprint s
  let io_severity := if s.io_wait_pct > 90 then "CRITICAL" else "HIGH"
  let io_analysis_sql :=
    "-- SENIOR DBA DIAGNOSTIC: Object-Level IO Analysis" ++
    "\n-- Signal context: io_wait_pct=" ++ fmtFixed 1 s.io_wait_pct ++ "% (" ++
      io_severity ++ "), executions=" ++ intStr s.executions ++ " (batch pattern)" ++
    "\n-- Focus: Identify WHICH objects are causing IO amplification BEFORE looking at plan" ++
    "\n\n-- Step 1: Identify objects causing physical reads for this SQL" ++
    "\nSELECT \n  o.owner,\n  o.object_name,\n  o.object_type,\n  s.statistic_name," ++
    "\n  s.value AS physical_reads," ++
    "\n  ROUND(s.value / NULLIF(SUM(s.value) OVER(), 0) * 100, 2) AS pct_of_total" ++
    "\nFROM v$segment_statistics s\nJOIN dba_objects o ON s.obj# = o.object_id" ++
    "\nWHERE s.statistic_name IN ('physical reads', 'physical reads direct', 'db block gets')" ++
    "\n  AND s.value > 0\n  AND o.object_id IN (\n    -- Objects accessed by this SQL" ++
    "\n    SELECT DISTINCT object# \n    FROM v$sql_plan \n    WHERE sql_id = '" ++
      s.sql_id ++ "'\n      AND object# IS NOT NULL\n  )" ++
    "\nORDER BY s.value DESC\nFETCH FIRST 10 ROWS ONLY;\n" ++
    "\n-- DBA Reasoning: If io_wait_pct=" ++ fmtFixed 1 s.io_wait_pct ++
      "%, the bottleneck is data access." ++
    "\n-- We need to know WHICH table/index is causing this BEFORE we can fix it."
  { action := "OBJECT_IO_ANALYSIS"
    sql := io_analysis_sql
    intent := "Identify which objects cause " ++ fmtFixed 1 s.io_wait_pct ++
      "% IO wait for SQL " ++ s.sql_id
    explanation := "Senior DBA approach: Object-level IO first, plan second. IO wait at " ++
      fmtFixed 1 s.io_wait_pct ++ "% indicates data access is the bottleneck."
    category := decision.category.value
    signal_fingerprint := fingerprint }

/-- The `SEGMENT_STATISTICS` artifact of
`_generate_io_bound_commands_dba_style`. -/
def io_segment_cmd (s : NormalizedSignals) (decision : DecisionResult) : GeneratedSQL :=
  let fingerprint := create_signal_fingerprint s
  let segment_sql :=
    "-- SENIOR DBA DIAGNOSTIC: Segment Statistics Analysis" ++
    "\n-- Signal context: io_wait_pct=" ++ fmtFixed 1 s.io_wait_pct ++
      "%, total_elapsed=" ++ fmtFixed 1 s.total_elapsed ++ "s" ++
    "\n-- This tells us HOW MUCH IO each object is consuming" ++
    "\n\nSELECT \n  segment_name,\n  segment_type,\n  tablespace_name," ++
    "\n  bytes / 1024 / 1024 AS size_mb,\n  blocks," ++
    "\n  ROUND(bytes / 1024 / 1024 / NULLIF(" ++ pyFloatRepr s.total_elapsed ++
      ", 0) * 100, 2) AS mb_per_sec_estimate" ++
    "\nFROM dba_segments\nWHERE segment_name IN (\n  SELECT object_name " ++
    "\n  FROM dba_objects \n  WHERE object_id IN (\n    SELECT DISTINCT object# " ++
    "\n    FROM v$sql_plan \n    WHERE sql_id = '" ++ s.sql_id ++ "'" ++
    "\n      AND object# IS NOT NULL\n  )\n)\nORDER BY bytes DESC;\n" ++
    "\n-- DBA Reasoning: Large segments with high physical reads = primary tuning target"
  { action := "SEGMENT_STATISTICS"
    sql := segment_sql
    intent := "Analyze segment sizes for objects accessed by SQL " ++ s.sql_id
    explanation := "Segment analysis reveals which objects are candidates for partitioning or indexing."
    category := decision.category.value
    signal_fingerprint := fingerprint }

/-- The xplan confirmation artifact of
`_generate_io_bound_commands_dba_style` (the source rewrites the header of
`_generate_dynamic_xplan`'s SQL with `str.replace`). -/
def io_xplan_confirm_cmd (s : NormalizedSignals) (decision : DecisionResult) : GeneratedSQL :=
  let xplan := generate_dynamic_xplan s decision.category
  { action := xplan.action
    sql := strReplace xplan.sql "-- Dynamic XPLAN"
      "-- CONFIRMATION STEP: Execution Plan Analysis"
    intent := "CONFIRM object-level findings with execution plan for " ++ s.sql_id
    explanation := "Now that we know which objects cause IO, verify the access path. " ++
      xplan.explanation
    category := xplan.category
    signal_fingerprint := xplan.signal_fingerprint }

/-- The `ADVISOR_DEFERRED` artifact of
`_generate_io_bound_commands_dba_style`. -/
def io_advisor_deferred_cmd (s : NormalizedSignals) (decision : DecisionResult) : GeneratedSQL :=
  let fingerprint := create_signal_fingerprint s
  { action := "ADVISOR_DEFERRED"
    sql :=
      "-- SQL Access Advisor: DEFERRED" ++
      "\n-- Signal context: io_wait_pct=" ++ fmtFixed 1 s.io_wait_pct ++
        "%, executions=" ++ intStr s.executions ++
      "\n-- \n-- DBA Decision: Advisor is deferred because:" ++
      "\n-- 1. IO wait (" ++ fmtFixed 1 s.io_wait_pct ++
        "%) is high but not critical (< 90%)" ++
      "\n-- 2. Object-level analysis should reveal the issue first" ++
      "\n-- 3. Running full advisor without knowing the problem wastes time\n--" ++
      "\n-- RECOMMENDATION: Review object IO and segment statistics first." ++
      "\n-- If index is clearly missing, advisor may not be needed at all.\n" ++
      "\nSELECT 'Review object IO analysis results before running advisor' AS recommendation" ++
      "\nFROM dual;"
    intent := "Explain why SQL Access Advisor is not run immediately"
    explanation := "Senior DBA approach: Don't run expensive advisor until object-level analysis confirms need."
    category := decision.category.value
    signal_fingerprint := fingerprint }

/-- `_generate_io_bound_commands_dba_style`. -/
def generate_io_bound_commands_dba_style (s : NormalizedSignals)
    (decision : DecisionResult) : List GeneratedSQL :=
  [io_object_cmd s decision, io_segment_cmd s decision] ++
  (if ActionType.PLAN_ANALYSIS ∈ decision.allowed_actions then
    [io_xplan_confirm_cmd s decision] else []) ++
  (if s.io_wait_pct > 90 ∧ s.executions < 10 then
    (if ActionType.SQL_ACCESS_ADVISOR ∈ decision.allowed_actions then
      [generate_access_advisor_io_focused s] else [])
  else if s.io_wait_pct > 70 then
    [io_advisor_deferred_cmd s decision]
  else [])

/-- The CPU-tier time limit of `_generate_tuning_advisor_cpu` (its own
600/300/120 tiers keyed on `cpu_pct`, independent of
`_calculate_advisor_time_limit`). -/
def cpu_tuning_time_limit (s : NormalizedSignals) : ℤ :=
  if s.cpu_pct ≥ 90 then 600
  else if s.cpu_pct ≥ 70 then 300 else 120

/-- `_generate_tuning_advisor_cpu`: SQL Tuning Advisor task whose scope and
time limit come from the CPU severity tiers (600/300/120), not from
`_calculate_advisor_time_limit`. -/
def generate_tuning_advisor_cpu (s : NormalizedSignals) : GeneratedSQL :=
  let task_suffix := generate_task_suffix s
  let task_name := "CPU_TUNE_" ++ s.sql_id ++ "_" ++ task_suffix
  let scope := if s.cpu_pct ≥ 90 then "COMPREHENSIVE"
    else if s.cpu_pct ≥ 70 then "COMPREHENSIVE" else "LIMITED"
  let time_limit : ℤ := cpu_tuning_time_limit s
  let focus_areas := if s.cpu_pct ≥ 90 then "plan alternative, SQL profile, restructure"
    else if s.cpu_pct ≥ 70 then "plan alternative, SQL profile" else "SQL profile"
  let execution_context :=
    if s.executions ≥ 1000 then
      "\n-- High-frequency execution context (" ++ intStrComma s.executions ++
        " executions)\n-- Consider: Bind variable impact, cursor sharing efficiency"
    else if s.executions < 10 then
      "\n-- Low-frequency execution context (" ++ intStr s.executions ++
        " executions)\n-- Consider: One-time optimization, avoid profile overhead"
    else ""
  let sql :=
    ("-- SQL Tuning Advisor for CPU-Bound SQL: " ++ s.sql_id ++
    "\n-- IMPORTANT: Run AFTER manual plan inspection (per DBA best practice)" ++
    "\n-- CPU Severity: " ++ fmtFixed 1 s.cpu_pct ++ "% | Focus: " ++ focus_areas ++
    "\n-- Signal Context: io=" ++ fmtFixed 1 s.io_wait_pct ++ "%, elapsed=" ++
      fmtFixed 1 s.total_elapsed ++ "s, exec=" ++ intStr s.executions ++
    "\n" ++ execution_context ++ "\n" ++
    "\nDECLARE\n  v_task_name VARCHAR2(128) := '" ++ task_name ++ "';" ++
    "\n  v_task_id   NUMBER;\nBEGIN" ++
    "\n  -- Create tuning task with CPU-optimized parameters" ++
    "\n  v_task_id := DBMS_SQLTUNE.CREATE_TUNING_TASK(" ++
    "\n    sql_id       => '" ++ s.sql_id ++ "',\n    task_name    => v_task_name,") ++
    ("\n    time_limit   => " ++ intStr time_limit) ++
    (",  -- " ++ intStr (Int.ediv time_limit 60) ++ " min analysis for " ++
      fmtFixed 1 s.cpu_pct ++ "% CPU" ++
    "\n    scope        => '" ++ scope ++ "'," ++
    "\n    description  => 'CPU-bound SQL tuning - " ++ fmtFixed 1 s.cpu_pct ++
      "% CPU, " ++ fmtFixed 1 s.cpu_time ++ "s CPU time'\n  );\n  " ++
    "\n  DBMS_OUTPUT.PUT_LINE('Tuning task created: ' || v_task_name);" ++
    "\n  DBMS_OUTPUT.PUT_LINE('Scope: " ++ scope ++ ", Time limit: " ++
      intStr time_limit ++ "s');\n  \n  -- Execute the tuning task" ++
    "\n  DBMS_SQLTUNE.EXECUTE_TUNING_TASK(task_name => v_task_name);\n  " ++
    "\n  DBMS_OUTPUT.PUT_LINE('Tuning task ' || v_task_name || ' completed');" ++
    "\nEND;\n/\n\n-- Get comprehensive tuning report" ++
    "\nSELECT DBMS_SQLTUNE.REPORT_TUNING_TASK(" ++
    "\n  task_name   => '" ++ task_name ++ "',\n  type        => 'TEXT'," ++
    "\n  level       => 'ALL',  -- Full detail for CPU-bound analysis" ++
    "\n  section     => 'ALL'\n) AS tuning_report\nFROM DUAL;\n" ++
    "\n-- View specific recommendations with benefit analysis" ++
    "\nSELECT \n  rec_id,\n  finding_id,\n  type,\n  message,\n  benefit_pct," ++
    "\n  CASE \n    WHEN benefit_pct > 50 THEN 'HIGH_VALUE - Implement'" ++
    "\n    WHEN benefit_pct > 20 THEN 'MODERATE_VALUE - Consider'" ++
    "\n    ELSE 'LOW_VALUE - Optional'\n  END AS recommendation_priority" ++
    "\nFROM DBA_ADVISOR_RECOMMENDATIONS\nWHERE task_name = '" ++ task_name ++ "'" ++
    "\nORDER BY benefit_pct DESC NULLS LAST;\n" ++
    "\n-- Check for SQL Profile recommendations (common for CPU-bound)" ++
    "\nSELECT \n  profile_name,\n  status,\n  sql_text,\n  category" ++
    "\nFROM DBA_SQL_PROFILES\nWHERE sql_text LIKE '%" ++ s.sql_id ++ "%'" ++
    "\n   OR name LIKE '%" ++ task_name ++ "%';")
  { action := "SQL_TUNING_ADVISOR"
    sql := sql
    intent := "Run SQL Tuning Advisor for CPU-bound SQL " ++ s.sql_id ++ " (" ++
      fmtFixed 1 s.cpu_pct ++ "% CPU)"
    explanation := "Generated because cpu_pct=" ++ fmtFixed 1 s.cpu_pct ++ "%, cpu_time=" ++
      fmtFixed 1 s.cpu_time ++ "s (after plan inspection)"
    category := SQLCategory.CPU_BOUND_SQL.value
    signal_fingerprint := create_signal_fingerprint s }

/-- The `CPU_COST_ANALYSIS` artifact of
`_generate_cpu_bound_commands_dba_style`. -/
def cpu_cost_cmd (s : NormalizedSignals) (decision : DecisionResult) : GeneratedSQL :=
  let fingerprint := create_signal_fingerprint s
  let cpu_severity := if s.cpu_pct > 90 then "CRITICAL" else "HIGH"
  let predicate_sql :=
    "-- SENIOR DBA DIAGNOSTIC: Predicate & Join Cost Analysis" ++
    "\n-- Signal context: cpu_pct=" ++ fmtFixed 1 s.cpu_pct ++ "% (" ++ cpu_severity ++
      "), io_wait_pct=" ++ fmtFixed 1 s.io_wait_pct ++ "%" ++
    "\n-- Focus: Identify CPU-heavy operations and join filters BEFORE running XPLAN" ++
    "\n\n-- CPU cost breakdown by operation" ++
    "\nSELECT \n  id,\n  operation,\n  options,\n  object_name,\n  cpu_cost," ++
    "\n  cardinality,\n  cost," ++
    "\n  ROUND(cpu_cost / NULLIF(SUM(cpu_cost) OVER(), 0) * 100, 2) AS pct_cpu_cost," ++
    "\n  access_predicates,\n  filter_predicates\nFROM v$sql_plan" ++
    "\nWHERE sql_id = '" ++ s.sql_id ++ "'\n  AND cpu_cost > 0" ++
    "\nORDER BY cpu_cost DESC;\n" ++
    "\n-- DBA Reasoning: cpu_pct=" ++ fmtFixed 1 s.cpu_pct ++
      "% indicates computation is the bottleneck." ++
    "\n-- We need to identify WHICH operation consumes CPU before looking at full plan."
  { action := "CPU_COST_ANALYSIS"
    sql := predicate_sql
    intent := "Identify CPU-heavy operations for SQL " ++ s.sql_id ++ " with " ++
      fmtFixed 1 s.cpu_pct ++ "% CPU"
    explanation := "Senior DBA approach: CPU cost analysis first, not XPLAN. CPU at " ++
      fmtFixed 1 s.cpu_pct ++ "% means joins or computations are the issue."
    category := decision.category.value
    signal_fingerprint := fingerprint }

/-- The `JOIN_METHOD_ANALYSIS` artifact of
`_generate_cpu_bound_commands_dba_style`. -/
def cpu_join_cmd (s : NormalizedSignals) (decision : DecisionResult) : GeneratedSQL :=
  let fingerprint := create_signal_fingerprint s
  let join_analysis_sql :=
    "-- SENIOR DBA DIAGNOSTIC: Join Method Analysis" ++
    "\n-- Signal context: cpu_pct=" ++ fmtFixed 1 s.cpu_pct ++ "%, cpu_time=" ++
      fmtFixed 1 s.cpu_time ++ "s" ++
    "\n-- High CPU often means wrong join method or missing join conditions" ++
    "\n\n-- Identify all join operations" ++
    "\nSELECT \n  p.id,\n  p.operation,\n  p.options,\n  p.cost,\n  p.cpu_cost," ++
    "\n  p.cardinality AS est_rows,\n  a.output_rows AS actual_rows,\n  CASE " ++
    "\n    WHEN a.output_rows > p.cardinality * 10 THEN 'SEVERE UNDERESTIMATE'" ++
    "\n    WHEN a.output_rows > p.cardinality * 2 THEN 'UNDERESTIMATE'" ++
    "\n    WHEN a.output_rows < p.cardinality / 10 THEN 'SEVERE OVERESTIMATE'" ++
    "\n    ELSE 'REASONABLE'\n  END AS cardinality_quality" ++
    "\nFROM v$sql_plan p\nLEFT JOIN v$sql_plan_statistics_all a " ++
    "\n  ON p.sql_id = a.sql_id \n  AND p.child_number = a.child_number " ++
    "\n  AND p.id = a.id\nWHERE p.sql_id = '" ++ s.sql_id ++ "'" ++
    "\n  AND p.operation LIKE '%JOIN%'\nORDER BY p.cpu_cost DESC;\n" ++
    "\n-- DBA Reasoning: Wrong join method can cause 10x-100x CPU overhead" ++
    "\n-- HASH JOIN for large sets, NESTED LOOPS for small/indexed sets"
  { action := "JOIN_METHOD_ANALYSIS"
    sql := join_analysis_sql
    intent := "Analyze join methods causing " ++ fmtFixed 1 s.cpu_pct ++
      "% CPU for SQL " ++ s.sql_id
    explanation := "Join method selection is critical for CPU-bound queries. Wrong method can multiply CPU cost by 10-100x."
    category := decision.category.value
    signal_fingerprint := fingerprint }

/-- The `CARTESIAN_DETECTION` artifact of
`_generate_cpu_bound_commands_dba_style`. -/
def cpu_cartesian_cmd (s : NormalizedSignals) (decision : DecisionResult) : GeneratedSQL :=
  let fingerprint := create_signal_fingerprint s
  { action := "CARTESIAN_DETECTION"
    sql :=
      "-- SENIOR DBA DIAGNOSTIC: Cartesian Product Detection" ++
      "\n-- Signal context: cpu_pct=" ++ fmtFixed 1 s.cpu_pct ++ "% (CRITICAL)" ++
      "\n-- Cartesian joins are the #1 cause of extreme CPU consumption" ++
      "\n\nSELECT \n  p.id,\n  p.operation || ' ' || p.options AS operation," ++
      "\n  p.object_name,\n  p.cardinality,\n  p.cost,\n  p.cpu_cost,\n  CASE " ++
      "\n    WHEN p.operation = 'MERGE JOIN' AND p.options = 'CARTESIAN' THEN 'CARTESIAN PRODUCT DETECTED!'" ++
      "\n    WHEN p.operation = 'NESTED LOOPS' AND p.cardinality > 1000000 THEN 'POTENTIAL CARTESIAN'" ++
      "\n    ELSE 'NORMAL JOIN'\n  END AS warning" ++
      "\nFROM v$sql_plan p\nWHERE p.sql_id = '" ++ s.sql_id ++ "'\n  AND (" ++
      "\n    (p.operation = 'MERGE JOIN' AND p.options = 'CARTESIAN')" ++
      "\n    OR (p.operation = 'NESTED LOOPS' AND p.cardinality > 100000)" ++
      "\n    OR p.cardinality > 10000000\n  )\nORDER BY p.cost DESC;\n" ++
      "\n-- DBA Reasoning: MERGE JOIN CARTESIAN at " ++ fmtFixed 1 s.cpu_pct ++
        "% CPU = missing join condition" ++
      "\n-- This is the FIRST thing a senior DBA checks for extreme CPU"
    intent := "Detect cartesian products causing " ++ fmtFixed 1 s.cpu_pct ++
      "% CPU for SQL " ++ s.sql_id
    explanation := "Cartesian products are the #1 cause of extreme CPU. At " ++
      fmtFixed 1 s.cpu_pct ++ "%, this must be checked FIRST."
    category := decision.category.value
    signal_fingerprint := fingerprint }

/-- The xplan confirmation artifact of
`_generate_cpu_bound_commands_dba_style`. -/
def cpu_xplan_confirm_cmd (s : NormalizedSignals) (decision : DecisionResult) : GeneratedSQL :=
  let xplan := generate_dynamic_xplan s decision.category
  { action := xplan.action
    sql := strReplace xplan.sql "-- Dynamic XPLAN"
      "-- CONFIRMATION STEP: Full Plan After Join Analysis"
    intent := "CONFIRM join analysis findings with full execution plan for " ++ s.sql_id
    explanation := "Now that we know which joins are expensive, review full plan. " ++
      xplan.explanation
    category := xplan.category
    signal_fingerprint := xplan.signal_fingerprint }

/-- `_generate_cpu_bound_commands_dba_style`. -/
def generate_cpu_bound_commands_dba_style (s : NormalizedSignals)
    (decision : DecisionResult) : List GeneratedSQL :=
  [cpu_cost_cmd s decision, cpu_join_cmd s decision] ++
  (if s.cpu_pct > 80 then [cpu_cartesian_cmd s decision] else []) ++
  (if ActionType.PLAN_ANALYSIS ∈ decision.allowed_actions then
    [cpu_xplan_confirm_cmd s decision] else []) ++
  (if ActionType.SQL_TUNING_ADVISOR ∈ decision.allowed_actions then
    [generate_tuning_advisor_cpu s] else [])

/-- The `EXECUTION_FREQUENCY_ANALYSIS` artifact of
`_generate_chatty_sql_commands_dba_style`. -/
def chatty_freq_cmd (s : NormalizedSignals) (decision : DecisionResult) : GeneratedSQL :=
  let fingerprint := create_signal_fingerprint s
  let freq_sql :=
    "-- SENIOR DBA DIAGNOSTIC: Execution Frequency Analysis" ++
    "\n-- Signal context: executions=" ++ intStrComma s.executions ++
      ", avg_exec_time=" ++ fmtFixedMs 1 s.avg_exec_time ++ "ms" ++
    "\n-- Focus: This query is FAST - the problem is FREQUENCY, not performance" ++
    "\n\n-- Execution pattern analysis" ++
    "\nSELECT \n  sql_id,\n  executions," ++
    "\n  ROUND(elapsed_time / 1000000, 2) AS total_elapsed_sec," ++
    "\n  ROUND(elapsed_time / NULLIF(executions, 0) / 1000, 2) AS avg_elapsed_ms," ++
    "\n  ROUND(cpu_time / NULLIF(executions, 0) / 1000, 2) AS avg_cpu_ms," ++
    "\n  buffer_gets," ++
    "\n  ROUND(buffer_gets / NULLIF(executions, 0), 2) AS buffer_gets_per_exec," ++
    "\n  rows_processed," ++
    "\n  ROUND(rows_processed / NULLIF(executions, 0), 2) AS rows_per_exec," ++
    "\n  parse_calls," ++
    "\n  ROUND(parse_calls / NULLIF(executions, 0) * 100, 2) AS parse_ratio_pct" ++
    "\nFROM v$sql\nWHERE sql_id = '" ++ s.sql_id ++ "';\n" ++
    "\n-- DBA Reasoning: " ++ intStrComma s.executions ++ " executions @ " ++
      fmtFixedMs 1 s.avg_exec_time ++ "ms each" ++
    "\n-- Query is FAST. Do NOT tune the SQL - analyze application behavior."
  { action := "EXECUTION_FREQUENCY_ANALYSIS"
    sql := freq_sql
    intent := "Analyze execution frequency for chatty SQL " ++ s.sql_id ++ " (" ++
      intStrComma s.executions ++ " executions)"
    explanation := "Senior DBA approach: Query runs in " ++
      fmtFixedMs 1 s.avg_exec_time ++ "ms - it's FAST. Problem is " ++
      intStrComma s.executions ++ " executions, not SQL performance."
    category := decision.category.value
    signal_fingerprint := fingerprint }

/-- The `CURSOR_EFFICIENCY_CHECK` artifact of
`_generate_chatty_sql_commands_dba_style`. -/
def chatty_cursor_cmd (s : NormalizedSignals) (decision : DecisionResult) : GeneratedSQL :=
  let fingerprint := create_signal_fingerprint s
  let cursor_sql :=
    "-- SENIOR DBA DIAGNOSTIC: Cursor and Bind Variable Efficiency" ++
    "\n-- Signal context: executions=" ++ intStrComma s.executions ++
      ", parse_intensive pattern suspected" ++
    "\n-- High execution count often means bind variable or cursor sharing issues" ++
    "\n\nSELECT \n  sql_id,\n  child_number,\n  executions,\n  parse_calls," ++
    "\n  ROUND(parse_calls / NULLIF(executions, 0) * 100, 2) AS hard_parse_ratio," ++
    "\n  is_bind_sensitive,\n  is_bind_aware,\n  is_shareable,\n  CASE " ++
    "\n    WHEN parse_calls > executions * 0.1 THEN 'HARD PARSE PROBLEM'" ++
    "\n    WHEN is_shareable = 'N' THEN 'CURSOR NOT SHAREABLE'" ++
    "\n    ELSE 'CURSOR OK'\n  END AS cursor_status" ++
    "\nFROM v$sql\nWHERE sql_id = '" ++ s.sql_id ++ "';\n" ++
    "\n-- Check for multiple child cursors (bind variable issues)" ++
    "\nSELECT \n  COUNT(*) AS child_cursor_count,\n  SUM(executions) AS total_executions," ++
    "\n  CASE \n    WHEN COUNT(*) > 10 THEN 'EXCESSIVE CHILD CURSORS - Missing binds?'" ++
    "\n    WHEN COUNT(*) > 5 THEN 'ELEVATED CHILD CURSORS'" ++
    "\n    ELSE 'NORMAL'\n  END AS assessment" ++
    "\nFROM v$sql\nWHERE sql_id = '" ++ s.sql_id ++ "';\n" ++
    "\n-- DBA Reasoning: Many child cursors = missing bind variables = cursor flooding"
  { action := "CURSOR_EFFICIENCY_CHECK"
    sql := cursor_sql
    intent := "Check cursor efficiency for high-frequency SQL " ++ s.sql_id
    explanation := "Chatty SQL often has cursor sharing issues. " ++
      intStrComma s.executions ++ " executions should reuse cursors efficiently."
    category := decision.category.value
    signal_fingerprint := fingerprint }

/-- The `APPLICATION_PATTERN_ANALYSIS` artifact of
`_generate_chatty_sql_commands_dba_style`. -/
def chatty_app_cmd (s : NormalizedSignals) (decision : DecisionResult) : GeneratedSQL :=
  let fingerprint := create_signal_fingerprint s
  let app_pattern_sql :=
    "-- SENIOR DBA DIAGNOSTIC: Application Calling Pattern" ++
    "\n-- Signal context: " ++ intStrComma s.executions ++
      " executions - is this an N+1 query pattern?" ++
    "\n-- Focus: Identify if application is calling this SQL in a loop" ++
    "\n\n-- Check execution distribution over time (if AWR available)" ++
    "\nSELECT \n  s.sql_id,\n  s.module,\n  s.action,\n  s.parsing_schema_name," ++
    "\n  s.executions," ++
    "\n  ROUND(s.elapsed_time / 1000000 / NULLIF(s.executions, 0), 4) AS avg_sec_per_exec," ++
    "\n  s.last_active_time,\n  CASE " ++
    "\n    WHEN s.executions > 10000 AND s.elapsed_time / NULLIF(s.executions, 0) < 100000 THEN 'N+1 QUERY PATTERN LIKELY'" ++
    "\n    WHEN s.module LIKE '%JDBC%' OR s.module LIKE '%ORM%' THEN 'ORM GENERATED - Check batch fetch size'" ++
    "\n    ELSE 'Review application loop'\n  END AS recommendation" ++
    "\nFROM v$sql s\nWHERE s.sql_id = '" ++ s.sql_id ++ "';\n" ++
    "\n-- DBA Reasoning: " ++ intStrComma s.executions ++ " executions of a " ++
      fmtFixedMs 1 s.avg_exec_time ++ "ms query" ++
    "\n-- This is NOT a database problem - it's an APPLICATION problem.\n-- " ++
    "\n-- RECOMMENDATIONS:\n-- 1. Check for N+1 query pattern in ORM" ++
    "\n-- 2. Increase batch/fetch size\n-- 3. Consider client-side caching" ++
    "\n-- 4. DO NOT add indexes - query is already fast!"
  { action := "APPLICATION_PATTERN_ANALYSIS"
    sql := app_pattern_sql
    intent := "Detect application calling pattern for chatty SQL " ++ s.sql_id
    explanation := "With " ++ intStrComma s.executions ++ " executions at " ++
      fmtFixedMs 1 s.avg_exec_time ++
      "ms each, this is an APPLICATION issue, not a database issue."
    category := decision.category.value
    signal_fingerprint := fingerprint }

/-- The `DBA_DECISION_NOTICE` artifact of
`_generate_chatty_sql_commands_dba_style`. -/
def chatty_notice_cmd (s : NormalizedSignals) (decision : DecisionResult) : GeneratedSQL :=
  let fingerprint := create_signal_fingerprint s
  { action := "DBA_DECISION_NOTICE"
    sql :=
        "-- SENIOR DBA DECISION: XPLAN and Advisors SKIPPED" ++
        "\n-- Signal context: executions=" ++ intStrComma s.executions ++
          ", avg_exec_time=" ++ fmtFixedMs 1 s.avg_exec_time ++ "ms\n" ++
        "\n-- Why XPLAN is NOT shown:" ++
        "\n-- 1. Query runs in " ++ fmtFixedMs 1 s.avg_exec_time ++
          "ms - it's already FAST" ++
        "\n-- 2. Looking at the plan would not reveal anything useful" ++
        "\n-- 3. The problem is FREQUENCY (" ++ intStrComma s.executions ++
          " calls), not PERFORMANCE\n" ++
        "\n-- Why SQL Advisors are NOT shown:" ++
        "\n-- 1. SQL Access Advisor recommends indexes - but indexes won't help a fast query" ++
        "\n-- 2. SQL Tuning Advisor suggests plan changes - but plan is already efficient" ++
        "\n-- 3. Running advisors would waste DBA time\n" ++
        "\n-- CORRECT ACTION: Work with application team to:" ++
        "\n-- 1. Reduce call frequency (batch operations)" ++
        "\n-- 2. Implement client-side caching" ++
        "\n-- 3. Fix N+1 query patterns\n" ++
        "\nSELECT 'Focus on application, not database' AS senior_dba_recommendation FROM dual;"
    intent := "Explain Senior DBA decision to skip XPLAN and Advisors"
    explanation := "At " ++ fmtFixedMs 1 s.avg_exec_time ++
      "ms per execution, SQL is optimized. " ++ intStrComma s.executions ++
      " executions is an app issue."
    category := decision.category.value
    signal_fingerprint := fingerprint }

/-- `_generate_chatty_sql_commands_dba_style`: frequency, cursor and
application analysis — no XPLAN and no advisors. -/
def generate_chatty_sql_commands_dba_style (s : NormalizedSignals)
    (decision : DecisionResult) : List GeneratedSQL :=
  [chatty_freq_cmd s decision, chatty_cursor_cmd s decision,
   chatty_app_cmd s decision, chatty_notice_cmd s decision]

/-- `_generate_access_advisor_limited`: LIMITED-scope Access Advisor for
moderate batch SQL; the embedded TIME_LIMIT is a fixed 120 seconds. -/
def generate_access_advisor_limited (s : NormalizedSignals) : GeneratedSQL :=
  let fingerprint := create_signal_fingerprint s
  let task_suffix := generate_task_suffix s
  let io_level := if s.io_wait_pct > 50 then "high" else "moderate"
  let sql :=
    ("-- SQL Access Advisor: LIMITED Scope" ++
    "\n-- SQL_ID: " ++ s.sql_id ++ " | Signal context: io=" ++
      fmtFixed 1 s.io_wait_pct ++ "%, exec=" ++ intStr s.executions ++
    "\n-- DBA Decision: LIMITED scope because IO is not critical (< 70%)" ++
    "\n\n-- Why LIMITED mode?" ++
    "\n-- 1. io_wait_pct=" ++ fmtFixed 1 s.io_wait_pct ++ "% is " ++ io_level ++
      " but not critical" ++
    "\n-- 2. Batch SQL (" ++ intStr s.executions ++
      " executions) doesn't need aggressive indexing" ++
    "\n-- 3. Full analysis would take longer than the potential benefit" ++
    "\n\nDECLARE\n  v_task_name VARCHAR2(128) := 'BATCH_LIMITED_" ++ s.sql_id ++
      "_" ++ task_suffix ++ "';\n  v_task_id   NUMBER;\nBEGIN" ++
    "\n  DBMS_ADVISOR.CREATE_TASK(\n    advisor_name => 'SQL Access Advisor'," ++
    "\n    task_name    => v_task_name,\n    task_id      => v_task_id\n  );\n  " ++
    "\n  DBMS_ADVISOR.SET_TASK_PARAMETER(\n    task_name => v_task_name,") ++
    ("\n    parameter => 'TIME_LIMIT',\n    value     => 120") ++
    ("  -- 2 minutes (limited analysis)\n  );\n  " ++
    "\n  DBMS_ADVISOR.SET_TASK_PARAMETER(\n    task_name => v_task_name," ++
    "\n    parameter => 'MODE',\n    value     => 'LIMITED'\n  );\n  " ++
    "\n  DBMS_ADVISOR.ADD_STS_REF(\n    task_name     => v_task_name," ++
    "\n    sts_owner     => USER,\n    workload_name => 'SQL_WORKLOAD_" ++
      s.sql_id ++ "'\n  );\n  " ++
    "\n  DBMS_ADVISOR.EXECUTE_TASK(task_name => v_task_name);" ++
    "\n  DBMS_OUTPUT.PUT_LINE('Task ' || v_task_name || ' completed (LIMITED scope)');" ++
    "\nEND;\n/\n\n-- Review recommendations" ++
    "\nSELECT rec_id, rank, benefit, action_type" ++
    "\nFROM dba_advisor_recommendations\nWHERE task_name = 'BATCH_LIMITED_" ++
      s.sql_id ++ "_" ++ task_suffix ++ "'\nORDER BY benefit DESC;")
  { action := "SQL_ACCESS_ADVISOR_LIMITED"
    sql := sql
    intent := "Run LIMITED scope Access Advisor for batch SQL " ++ s.sql_id
    explanation := "LIMITED scope because io_wait_pct=" ++ fmtFixed 1 s.io_wait_pct ++
      "% is not critical. Full analysis not warranted."
    category := SQLCategory.BATCH_SQL.value
    signal_fingerprint := fingerprint }

/-- `_generate_access_advisor_full`: full Access Advisor task for batch SQL,
parameterized by `_calculate_advisor_time_limit` and the scope helpers. -/
def generate_access_advisor_full (s : NormalizedSignals) : GeneratedSQL :=
  let task_suffix := generate_task_suffix s
  let task_name := "BATCH_ACCESS_" ++ s.sql_id ++ "_" ++ task_suffix
  let time_limit := calculate_advisor_time_limit s
  let analysis_scope := determine_analysis_scope s
  let workload_scope := determine_workload_scope s
  let sql :=
    ("-- SQL Access Advisor for Batch SQL Analysis" ++
    "\n-- SQL_ID: " ++ s.sql_id ++ " | Category: BATCH_SQL" ++
    "\n-- Signal Context: io=" ++ fmtFixed 1 s.io_wait_pct ++ "%, cpu=" ++
      fmtFixed 1 s.cpu_pct ++ "%, avg_exec=" ++ fmtFixed 2 s.avg_exec_time ++ "s" ++
    "\n-- Generated for SQL with " ++ fmtFixed 2 s.avg_exec_time ++
      "s avg execution time, " ++ intStr s.executions ++ " executions" ++
    "\n\n-- Step 1: Create Access Advisor Task" ++
    "\nDECLARE\n  v_task_name VARCHAR2(128) := '" ++ task_name ++ "';" ++
    "\n  v_task_id   NUMBER;\nBEGIN" ++
    "\n  -- Create task for index/MV recommendations" ++
    "\n  DBMS_ADVISOR.CREATE_TASK(\n    advisor_name => 'SQL Access Advisor'," ++
    "\n    task_name    => v_task_name,\n    task_id      => v_task_id\n  );\n  " ++
    "\n  -- Configure analysis parameters based on workload characteristics" ++
    "\n  DBMS_ADVISOR.SET_TASK_PARAMETER(\n    task_name => v_task_name," ++
    "\n    parameter => 'TIME_LIMIT',") ++
    ("\n    value     => " ++ intStr time_limit) ++
    ("  -- " ++ intStr (Int.ediv time_limit 60) ++
      " minutes based on query complexity\n  );\n  " ++
    "\n  DBMS_ADVISOR.SET_TASK_PARAMETER(\n    task_name => v_task_name," ++
    "\n    parameter => 'ANALYSIS_SCOPE',\n    value     => '" ++ analysis_scope ++
      "'  -- Determined by signal profile\n  );\n  " ++
    "\n  DBMS_ADVISOR.SET_TASK_PARAMETER(\n    task_name => v_task_name," ++
    "\n    parameter => 'MODE',\n    value     => '" ++ workload_scope ++
      "'  -- Workload-appropriate mode\n  );\n  " ++
    "\n  -- Add the SQL statement to analyze" ++
    "\n  DBMS_ADVISOR.ADD_STS_REF(\n    task_name     => v_task_name," ++
    "\n    sts_owner     => USER,\n    workload_name => 'SQL_WORKLOAD_" ++
      s.sql_id ++ "'\n  );\n  \n  -- Execute the advisor" ++
    "\n  DBMS_ADVISOR.EXECUTE_TASK(task_name => v_task_name);\n  " ++
    "\n  DBMS_OUTPUT.PUT_LINE('Task ' || v_task_name || ' completed');" ++
    "\n  DBMS_OUTPUT.PUT_LINE('Analysis scope: " ++ analysis_scope ++
      ", Time limit: " ++ intStr time_limit ++ "s');\nEND;\n/\n" ++
    "\n-- Step 2: Review Recommendations (sorted by benefit for batch SQL)" ++
    "\nSELECT \n  rec_id, \n  rank, \n  benefit,\n  benefit_type," ++
    "\n  action_type, \n  message\nFROM DBA_ADVISOR_RECOMMENDATIONS " ++
    "\nWHERE task_name = '" ++ task_name ++ "'\nORDER BY benefit DESC, rank;\n" ++
    "\n-- Step 3: Get Implementation Script" ++
    "\nSELECT DBMS_ADVISOR.GET_TASK_SCRIPT('" ++ task_name ++
      "') AS implementation_script\nFROM DUAL;\n" ++
    "\n-- Step 4: Review recommendation details" ++
    "\nSELECT \n  r.rec_id,\n  a.command,\n  a.attr1 AS object_owner," ++
    "\n  a.attr2 AS object_name,\n  a.attr3 AS object_type,\n  r.benefit" ++
    "\nFROM DBA_ADVISOR_ACTIONS a" ++
    "\nJOIN DBA_ADVISOR_RECOMMENDATIONS r ON a.task_name = r.task_name AND a.rec_id = r.rec_id" ++
    "\nWHERE a.task_name = '" ++ task_name ++ "'\nORDER BY r.benefit DESC;")
  { action := "SQL_ACCESS_ADVISOR"
    sql := sql
    intent := "Run full SQL Access Advisor analysis for batch SQL " ++ s.sql_id
    explanation := "Generated because avg_exec_time=" ++ fmtFixed 2 s.avg_exec_time ++
      "s, executions=" ++ intStr s.executions ++ ", io_wait=" ++
      fmtFixed 1 s.io_wait_pct ++ "%"
    category := SQLCategory.BATCH_SQL.value
    signal_fingerprint := create_signal_fingerprint s }

/-- The `PARALLEL_EFFECTIVENESS_CHECK` artifact of
`_generate_batch_sql_commands_dba_style`. -/
def batch_parallel_cmd (s : NormalizedSignals) (decision : DecisionResult) : GeneratedSQL :=
  let fingerprint := create_signal_fingerprint s
  let parallel_sql :=
    "-- SENIOR DBA DIAGNOSTIC: Parallel Execution Effectiveness" ++
    "\n-- Signal context: avg_exec_time=" ++ fmtFixed 1 s.avg_exec_time ++
      "s, executions=" ++ intStr s.executions ++ ", total_elapsed=" ++
      fmtFixed 1 s.total_elapsed ++ "s" ++
    "\n-- Focus: Is parallelism being used? Is it effective?" ++
    "\n\n-- Check parallel execution for this SQL" ++
    "\nSELECT \n  sql_id,\n  executions,\n  px_servers_executions," ++
    "\n  ROUND(px_servers_executions / NULLIF(executions, 0), 2) AS avg_px_servers," ++
    "\n  elapsed_time / 1000000 AS total_elapsed_sec," ++
    "\n  ROUND(elapsed_time / NULLIF(executions, 0) / 1000000, 2) AS avg_elapsed_sec," ++
    "\n  CASE \n    WHEN px_servers_executions = 0 THEN 'NO PARALLELISM - Consider enabling'" ++
    "\n    WHEN px_servers_executions / NULLIF(executions, 0) < 2 THEN 'LOW PARALLELISM - Check DOP'" ++
    "\n    WHEN px_servers_executions / NULLIF(executions, 0) > 8 THEN 'HIGH PARALLELISM - Check for downgrades'" ++
    "\n    ELSE 'NORMAL PARALLELISM'\n  END AS parallel_assessment" ++
    "\nFROM v$sql\nWHERE sql_id = '" ++ s.sql_id ++ "';\n" ++
    "\n-- DBA Reasoning: Batch SQL taking " ++ fmtFixed 1 s.avg_exec_time ++
      "s per execution" ++
    "\n-- If not using parallelism, that's the first thing to fix" ++
    "\n-- If already parallel, check for PX downgrade issues"
  { action := "PARALLEL_EFFECTIVENESS_CHECK"
    sql := parallel_sql
    intent := "Check parallel execution effectiveness for batch SQL " ++ s.sql_id
    explanation := "Senior DBA approach: Batch SQL at " ++ fmtFixed 1 s.avg_exec_time ++
      "s - first check if parallelism is working."
    category := decision.category.value
    signal_fingerprint := fingerprint }

/-- The `BATCH_WAIT_ANALYSIS` artifact of
`_generate_batch_sql_commands_dba_style`. -/
def batch_wait_cmd (s : NormalizedSignals) (decision : DecisionResult) : GeneratedSQL :=
  let fingerprint := create_signal_fingerprint s
  let io_status := if s.io_wait_pct > 70 then "dominant"
    else if s.io_wait_pct > 30 then "a factor" else "minimal"
  let io_explanation := if s.io_wait_pct > 70 then "IO is the bottleneck"
    else "mixed resource usage"
  let wait_sql :=
    "-- SENIOR DBA DIAGNOSTIC: Resource Wait Analysis for Batch SQL" ++
    "\n-- Signal context: io_wait_pct=" ++ fmtFixed 1 s.io_wait_pct ++ "%, cpu_pct=" ++
      fmtFixed 1 s.cpu_pct ++ "%" ++
    "\n-- Batch jobs often hit different bottlenecks than OLTP" ++
    "\n\nSELECT \n  event,\n  total_waits,\n  time_waited / 100 AS time_waited_sec," ++
    "\n  average_wait / 100 AS avg_wait_sec," ++
    "\n  ROUND(time_waited / NULLIF(SUM(time_waited) OVER(), 0) * 100, 2) AS pct_total_wait" ++
    "\nFROM v$sql_monitor_sesstat\nWHERE sql_id = '" ++ s.sql_id ++ "'" ++
    "\n  AND time_waited > 0\nORDER BY time_waited DESC\nFETCH FIRST 5 ROWS ONLY;\n" ++
    "\n-- If v$sql_monitor not available, use v$session_event pattern" ++
    "\nSELECT \n  'Note: For detailed wait analysis, enable SQL Monitoring or check v$active_session_history' AS info" ++
    "\nFROM dual;" ++
    "\n\n-- DBA Reasoning: io_wait_pct=" ++ fmtFixed 1 s.io_wait_pct ++
      "% tells us IO is " ++ io_status
  { action := "BATCH_WAIT_ANALYSIS"
    sql := wait_sql
    intent := "Analyze resource waits for batch SQL " ++ s.sql_id
    explanation := "Batch jobs often hit resource limits. IO wait at " ++
      fmtFixed 1 s.io_wait_pct ++ "% indicates " ++ io_explanation ++ "."
    category := decision.category.value
    signal_fingerprint := fingerprint }

/-- `_generate_batch_sql_commands_dba_style`. -/
def generate_batch_sql_commands_dba_style (s : NormalizedSignals)
    (decision : DecisionResult) : List GeneratedSQL :=
  [batch_parallel_cmd s decision, batch_wait_cmd s decision] ++
  (if ActionType.PLAN_ANALYSIS ∈ decision.allowed_actions then
    [generate_dynamic_xplan s decision.category] else []) ++
  (if ActionType.SQL_ACCESS_ADVISOR ∈ decision.allowed_actions ∨
      ActionType.INDEX_REVIEW ∈ decision.allowed_actions then
    (if s.io_wait_pct > 90 ∧ s.executions < 10 then
      [generate_access_advisor_full s]
    else if s.io_wait_pct > 70 then
      [generate_access_advisor_io_focused s]
    else
      [generate_access_advisor_limited s])
  else [])

/-- The 79-character box line used in the join-hint comment block. -/
def boxLine : String := String.mk (List.replicate 79 '═')

/-- `_generate_join_analysis`: join-method analysis whose sections depend on
the CPU severity tier. -/
def generate_join_analysis (s : NormalizedSignals) : GeneratedSQL :=
  let severity := if s.cpu_pct ≥ 90 then "CRITICAL"
    else if s.cpu_pct ≥ 70 then "HIGH" else "MODERATE"
  let include_cartesian_check := s.cpu_pct ≥ 90 ∨ (s.cpu_pct < 90 ∧ s.cpu_pct ≥ 70)
  let include_hint_recommendations := s.cpu_pct ≥ 90
  let cartesian_section :=
    if include_cartesian_check then
      "\n-- Cartesian Product Detection (" ++ severity ++ " CPU priority)" ++
      "\nSELECT \n  id,\n  operation,\n  options,\n  cardinality,\n  cost,\n  cpu_cost," ++
      "\n  CASE \n    WHEN cardinality > 100000 THEN 'CRITICAL_CARTESIAN'" ++
      "\n    WHEN cardinality > 10000 THEN 'HIGH_IMPACT_CARTESIAN'" ++
      "\n    ELSE 'MODERATE_CARTESIAN'\n  END AS cartesian_severity" ++
      "\nFROM V$SQL_PLAN\nWHERE sql_id = '" ++ s.sql_id ++ "'\n  AND (" ++
      "\n    (operation = 'NESTED LOOPS' AND cardinality > 10000) OR" ++
      "\n    (operation = 'MERGE JOIN' AND options = 'CARTESIAN') OR" ++
      "\n    (operation = 'HASH JOIN' AND cardinality > 100000)\n  );\n"
    else ""
  let estimate_section :=
    "\n-- Estimate vs Actual Analysis (cardinality feedback)" ++
    "\nSELECT \n  ps.id,\n  ps.operation || ' ' || NVL(ps.options, '') AS operation," ++
    "\n  p.cardinality AS estimated_rows,\n  ps.output_rows AS actual_rows,\n  CASE " ++
    "\n    WHEN ps.output_rows > p.cardinality * 10 THEN 'SEVERE_UNDERESTIMATE'" ++
    "\n    WHEN ps.output_rows > p.cardinality * 3 THEN 'UNDERESTIMATE'" ++
    "\n    WHEN ps.output_rows < p.cardinality / 10 THEN 'SEVERE_OVERESTIMATE'" ++
    "\n    WHEN ps.output_rows < p.cardinality / 3 THEN 'OVERESTIMATE'" ++
    "\n    ELSE 'ACCURATE'\n  END AS estimate_quality," ++
    "\n  ROUND(ps.output_rows / NULLIF(p.cardinality, 0), 2) AS ratio" ++
    "\nFROM V$SQL_PLAN_STATISTICS ps\nJOIN V$SQL_PLAN p ON ps.sql_id = p.sql_id " ++
    "\n  AND ps.child_number = p.child_number \n  AND ps.id = p.id" ++
    "\nWHERE ps.sql_id = '" ++ s.sql_id ++ "'\n  AND ps.operation LIKE '%JOIN%'" ++
    "\nORDER BY ABS(ps.output_rows - p.cardinality) DESC;\n"
  let hint_section :=
    if include_hint_recommendations then
      "\n/*\n" ++ boxLine ++
      "\nJOIN OPTIMIZATION HINTS for SQL_ID: " ++ s.sql_id ++
      "\nCPU: " ++ fmtFixed 1 s.cpu_pct ++ "% | " ++ severity ++ " Priority" ++
      "\n" ++ boxLine ++ "\n" ++
      "\nBased on CPU profile (" ++ fmtFixed 1 s.cpu_pct ++ "%), consider these hints:\n" ++
      "\n1. HASH JOIN for large result sets:\n   /*+ USE_HASH(table_alias) */" ++
      "\n   Best when: Many rows being joined, sufficient PGA\n" ++
      "\n2. NESTED LOOPS for selective access:" ++
      "\n   /*+ USE_NL(table_alias) INDEX(table_alias index_name) */" ++
      "\n   Best when: Driving table is small, inner table has selective index\n" ++
      "\n3. MERGE JOIN for pre-sorted data:\n   /*+ USE_MERGE(table_alias) */" ++
      "\n   Best when: Both inputs are already sorted by join columns\n" ++
      "\n4. Join order control:\n   /*+ LEADING(t1 t2 t3) */" ++
      "\n   Force specific join order when optimizer chooses poorly\n" ++
      "\n5. Disable specific join methods:\n   /*+ NO_USE_HASH(table_alias) */" ++
      "\n   /*+ NO_USE_NL(table_alias) */\n" ++ boxLine ++ "\n*/\n"
    else ""
  let sql :=
    "-- Join Method Analysis for CPU-Bound SQL: " ++ s.sql_id ++
    "\n-- CPU Severity: " ++ severity ++ " | CPU: " ++ fmtFixed 1 s.cpu_pct ++
      "% | IO: " ++ fmtFixed 1 s.io_wait_pct ++ "%" ++
    "\n-- Pattern: Data access efficient, but processing is expensive" ++
    "\n-- Signal Context: cpu_time=" ++ fmtFixed 1 s.cpu_time ++ "s, executions=" ++
      intStr s.executions ++
    "\n\n-- Current Join Methods in Execution Plan" ++
    "\nSELECT \n  id,\n  operation,\n  options,\n  object_name," ++
    "\n  cardinality AS est_rows,\n  cost,\n  cpu_cost," ++
    "\n  ROUND(cpu_cost / NULLIF(cost, 0), 2) AS cpu_cost_ratio,\n  CASE " ++
    "\n    WHEN cpu_cost / NULLIF(cost, 0) > 0.8 THEN 'CPU_DOMINANT'" ++
    "\n    WHEN cpu_cost / NULLIF(cost, 0) > 0.5 THEN 'BALANCED'" ++
    "\n    ELSE 'IO_DOMINANT'\n  END AS resource_profile" ++
    "\nFROM V$SQL_PLAN\nWHERE sql_id = '" ++ s.sql_id ++ "'" ++
    "\n  AND operation LIKE '%JOIN%'\nORDER BY cpu_cost DESC;\n" ++
    "\n-- All Join Operations with Parent/Child Details" ++
    "\nSELECT \n  p1.id AS join_id," ++
    "\n  p1.operation || ' ' || NVL(p1.options, '') AS join_method," ++
    "\n  p1.cardinality AS joined_rows,\n  p1.cpu_cost,\n  p1.cost," ++
    "\n  p2.object_name AS inner_table,\n  p2.cardinality AS inner_rows," ++
    "\n  p2.access_predicates,\n  p2.filter_predicates" ++
    "\nFROM V$SQL_PLAN p1\nLEFT JOIN V$SQL_PLAN p2 ON p1.sql_id = p2.sql_id " ++
    "\n  AND p1.child_number = p2.child_number \n  AND p2.parent_id = p1.id" ++
    "\nWHERE p1.sql_id = '" ++ s.sql_id ++ "'\n  AND p1.operation LIKE '%JOIN%'" ++
    "\nORDER BY p1.cpu_cost DESC;\n" ++
    cartesian_section ++ estimate_section ++ hint_section
  { action := "JOIN_METHOD_REVIEW"
    sql := sql
    intent := "Analyze join methods causing CPU overhead in " ++ s.sql_id ++
      " (" ++ severity ++ ")"
    explanation := "Generated because cpu_pct=" ++ fmtFixed 1 s.cpu_pct ++
      "% (>70%), io_wait_pct=" ++ fmtFixed 1 s.io_wait_pct ++ "% (<30%), cpu_time=" ++
      fmtFixed 1 s.cpu_time ++ "s"
    category := SQLCategory.CPU_BOUND_SQL.value
    signal_fingerprint := create_signal_fingerprint s }

/-- `_generate_index_usage_check`. -/
def generate_index_usage_check (s : NormalizedSignals) : GeneratedSQL :=
  let sql :=
    "-- Index Usage Analysis for SQL_ID: " ++ s.sql_id ++
    "\n-- Executions: " ++ intStr s.executions ++ " | Avg Time: " ++
      fmtFixed 2 s.avg_exec_time ++ "s" ++
    "\n\n-- Current index usage in execution plan" ++
    "\nSELECT \n  p.operation,\n  p.options,\n  p.object_name,\n  p.object_type," ++
    "\n  p.cardinality,\n  p.cost,\n  p.access_predicates,\n  p.filter_predicates" ++
    "\nFROM V$SQL_PLAN p\nWHERE p.sql_id = '" ++ s.sql_id ++ "'" ++
    "\n  AND p.object_type LIKE '%INDEX%'\nORDER BY p.id;\n" ++
    "\n-- Tables accessed without index (potential missing index)" ++
    "\nSELECT DISTINCT \n  p.object_name AS table_name,\n  p.options AS access_type," ++
    "\n  p.cardinality AS estimated_rows" ++
    "\nFROM V$SQL_PLAN p\nWHERE p.sql_id = '" ++ s.sql_id ++ "'" ++
    "\n  AND p.operation = 'TABLE ACCESS'\n  AND p.options = 'FULL'" ++
    "\n  AND p.cardinality > 1000;\n" ++
    "\n-- Recommended: Check column statistics for WHERE clause columns" ++
    "\nSELECT \n  column_name,\n  num_distinct,\n  num_nulls,\n  density,\n  histogram" ++
    "\nFROM DBA_TAB_COL_STATISTICS\nWHERE table_name IN (" ++
    "\n  SELECT DISTINCT object_name \n  FROM V$SQL_PLAN " ++
    "\n  WHERE sql_id = '" ++ s.sql_id ++ "' \n    AND object_type = 'TABLE'\n);"
  { action := "INDEX_REVIEW"
    sql := sql
    intent := "Review index usage and identify missing indexes for " ++ s.sql_id
    explanation := "Generated because executions=" ++ intStr s.executions ++
      ", avg_exec_time=" ++ fmtFixed 2 s.avg_exec_time ++ "s"
    category := SQLCategory.BATCH_SQL.value
    signal_fingerprint := create_signal_fingerprint s }

/-- `_generate_comprehensive_analysis`. -/
def generate_comprehensive_analysis (s : NormalizedSignals) : GeneratedSQL :=
  let sql :=
    "-- Comprehensive Analysis for Mixed Profile SQL: " ++ s.sql_id ++
    "\n-- Signals: CPU=" ++ fmtFixed 1 s.cpu_pct ++ "% | IO=" ++
      fmtFixed 1 s.io_wait_pct ++ "% | " ++
    "\n--          Execs=" ++ intStr s.executions ++ " | Avg=" ++
      fmtFixed 2 s.avg_exec_time ++ "s" ++
    "\n\n-- Full execution statistics" ++
    "\nSELECT \n  sql_id,\n  executions," ++
    "\n  ROUND(elapsed_time/1000000, 2) AS elapsed_sec," ++
    "\n  ROUND(cpu_time/1000000, 2) AS cpu_sec," ++
    "\n  ROUND(user_io_wait_time/1000000, 2) AS io_wait_sec," ++
    "\n  buffer_gets,\n  disk_reads,\n  rows_processed," ++
    "\n  ROUND(elapsed_time/NULLIF(executions,0)/1000000, 4) AS avg_elapsed_sec" ++
    "\nFROM V$SQL\nWHERE sql_id = '" ++ s.sql_id ++ "';\n" ++
    "\n-- Wait breakdown" ++
    "\nSELECT \n  event,\n  total_waits," ++
    "\n  ROUND(time_waited_micro/1000000, 2) AS time_waited_sec," ++
    "\n  ROUND(time_waited_micro/NULLIF(total_waits,0)/1000, 2) AS avg_wait_ms" ++
    "\nFROM V$SQL_MONITOR\nWHERE sql_id = '" ++ s.sql_id ++ "'" ++
    "\n  AND status = 'DONE (ALL ROWS)'\nORDER BY time_waited_micro DESC;\n" ++
    "\n-- Plan with all statistics" ++
    "\nSELECT * FROM TABLE(\n  DBMS_XPLAN.DISPLAY_CURSOR(\n    sql_id => '" ++
      s.sql_id ++ "',\n    cursor_child_no => NULL," ++
    "\n    format => 'ALLSTATS LAST +COST +IOSTATS +MEMSTATS'\n  )\n);\n" ++
    "\n/*\nMIXED PROFILE ANALYSIS SUMMARY:" ++
    "\n- CPU contribution: " ++ fmtFixed 1 s.cpu_pct ++ "%" ++
    "\n- IO contribution: " ++ fmtFixed 1 s.io_wait_pct ++ "%" ++
    "\n- Execution pattern: " ++ intStr s.executions ++ " executions @ " ++
      fmtFixed 2 s.avg_exec_time ++ "s each\n" ++
    "\nRecommendation: Investigate both access paths AND join methods\n*/"
  { action := "COMPREHENSIVE_ANALYSIS"
    sql := sql
    intent := "Comprehensive analysis for mixed profile SQL " ++ s.sql_id
    explanation := "Generated because multiple concerning metrics: cpu=" ++
      fmtFixed 1 s.cpu_pct ++ "%, io=" ++ fmtFixed 1 s.io_wait_pct ++ "%, execs=" ++
      intStr s.executions
    category := SQLCategory.MIXED_PROFILE_SQL.value
    signal_fingerprint := create_signal_fingerprint s }

/-- `_generate_mixed_profile_commands`. -/
def generate_mixed_profile_commands (s : NormalizedSignals)
    (_decision : DecisionResult) : List GeneratedSQL :=
  [generate_comprehensive_analysis s] ++
  (if s.io_wait_pct > 40 then [generate_index_usage_check s] else []) ++
  (if s.cpu_pct > 40 then [generate_join_analysis s] else [])

/-- `_generate_baseline_monitoring`. -/
def generate_baseline_monitoring (s : NormalizedSignals) : GeneratedSQL :=
  let sql :=
    "-- Baseline Monitoring for SQL_ID: " ++ s.sql_id ++
    "\n-- Status: LOW_PRIORITY - No immediate tuning required" ++
    "\n-- Metrics: CPU=" ++ fmtFixed 1 s.cpu_pct ++ "% | IO=" ++
      fmtFixed 1 s.io_wait_pct ++ "% | Execs=" ++ intStr s.executions ++
    "\n\n-- Current performance baseline" ++
    "\nSELECT \n  sql_id,\n  executions," ++
    "\n  ROUND(elapsed_time/1000000/NULLIF(executions,0), 4) AS avg_elapsed_sec," ++
    "\n  ROUND(cpu_time/1000000/NULLIF(executions,0), 4) AS avg_cpu_sec," ++
    "\n  buffer_gets / NULLIF(executions, 0) AS gets_per_exec,\n  last_active_time" ++
    "\nFROM V$SQL\nWHERE sql_id = '" ++ s.sql_id ++ "';\n" ++
    "\n-- Historical performance trend (if AWR available)" ++
    "\nSELECT \n  TO_CHAR(sn.begin_interval_time, 'YYYY-MM-DD HH24') AS snapshot_hour," ++
    "\n  s.executions_delta AS execs," ++
    "\n  ROUND(s.elapsed_time_delta/1000000, 2) AS elapsed_sec" ++
    "\nFROM DBA_HIST_SQLSTAT s\nJOIN DBA_HIST_SNAPSHOT sn ON s.snap_id = sn.snap_id" ++
    "\nWHERE s.sql_id = '" ++ s.sql_id ++ "'" ++
    "\nORDER BY sn.begin_interval_time DESC\nFETCH FIRST 10 ROWS ONLY;\n" ++
    "\n/*\nMONITORING NOTES:\n- No tuning action required at this time" ++
    "\n- Continue standard monitoring" ++
    "\n- Re-evaluate if metrics change significantly\n*/"
  { action := "MONITOR_ONLY"
    sql := sql
    intent := "Establish monitoring baseline for " ++ s.sql_id
    explanation := "Generated because SQL does not meet problem thresholds (cpu=" ++
      fmtFixed 1 s.cpu_pct ++ "%, io=" ++ fmtFixed 1 s.io_wait_pct ++ "%)"
    category := SQLCategory.LOW_PRIORITY.value
    signal_fingerprint := create_signal_fingerprint s }

/-- `_generate_monitoring_commands`. -/
def generate_monitoring_commands (s : NormalizedSignals)
    (_decision : DecisionResult) : List GeneratedSQL :=
  [generate_baseline_monitoring s]

/-- `DynamicSQLGenerator.generate_all`: category-dispatched command
generation (the audit-log side effect of the source is omitted). -/
def generate_all (decision : DecisionResult) : List GeneratedSQL :=
  let s := decision.signals
  match decision.category with
  | .IO_BOUND_SQL => generate_io_bound_commands_dba_style s decision
  | .CPU_BOUND_SQL => generate_cpu_bound_commands_dba_style s decision
  | .CHATTY_SQL => generate_chatty_sql_commands_dba_style s decision
  | .BATCH_SQL => generate_batch_sql_commands_dba_style s decision
  | .MIXED_PROFILE_SQL => generate_mixed_profile_commands s decision
  | .LOW_PRIORITY => generate_monitoring_commands s decision

/-!
Embedding of `DBAExpertEngine._filter_problematic_sql` and
`_calculate_dba_score` (dba_expert_engine.py).
-/

/-- Filter thresholds (class constants on `DBAExpertEngine`). -/
def CRITICAL_ELAPSED_TIME : ℚ := 30
def HIGH_ELAPSED_TIME : ℚ := 10
def CRITICAL_CPU_TIME : ℚ := 20
def HIGH_CPU_TIME : ℚ := 5
def CRITICAL_EXECUTIONS : ℤ := 500
def MEDIUM_EXECUTIONS : ℤ := 50
def CRITICAL_WORKLOAD_PCT : ℚ := 15
def HIGH_WORKLOAD_PCT : ℚ := 5
def CRITICAL_AVG_ELAPSED : ℚ := 1
def MEDIUM_AVG_ELAPSED : ℚ := mkRat 1 10
def HIGH_CPU_PERCENTAGE : ℚ := 50
def MEDIUM_CPU_PERCENTAGE : ℚ := 30

/-- A top-SQL row as read by the filter (`sql.get(..., 0)` defaults are the
structure defaults; an absent `sql_id` falls back to `SQL_<idx>`). -/
structure TopSqlRow where
  sql_id : Option String := Option.none
  elapsed : ℚ := 0
  cpu : ℚ := 0
  executions : ℤ := 0
  elapsed_per_exec : ℚ := 0
  pcttotal : ℚ := 0
  pctcpu : ℚ := 0
  pctio : ℚ := 0
  deriving DecidableEq, Inhabited

/-- A problematic-SQL finding. -/
structure Finding where
  sql_id : String
  sql_text : Option String
  metrics : TopSqlRow
  problem_reasons : List String
  severity : String
  dba_score : ℚ
  deriving DecidableEq, Inhabited

/-- `DBAExpertEngine._calculate_dba_score`. -/
def calculate_dba_score (elapsed cpu : ℚ) (executions : ℤ) (pcttotal elapsed_per_exec : ℚ) : ℚ :=
  let score := qMul (qDiv elapsed 100) 40
  let score := qAdd score (qMul (qDiv cpu 50) 25)
  let score := qAdd score (qMul (qDiv pcttotal 20) 20)
  let score := qAdd score (pyMin (qMul (qDiv ((executions : ℤ) : ℚ) 5000) 10) 10)
  let score := qAdd score (pyMin (qMul (qDiv elapsed_per_exec 2) 5) 5)
  pyRound 2 score

/-- Filtering state: `(is_problematic, problem_reasons, severity)`. -/
abbrev FilterState := Bool × List String × String

/-- Criteria 1–2: total elapsed time. -/
def crit_elapsed (r : TopSqlRow) (st : FilterState) : FilterState :=
  if r.elapsed ≥ CRITICAL_ELAPSED_TIME then
    (true, st.2.1 ++ ["HIGH_ELAPSED: " ++ fmtFixed 1 r.elapsed ++ "s total elapsed time"], "HIGH")
  else if r.elapsed ≥ HIGH_ELAPSED_TIME then
    (true, st.2.1 ++ ["MEDIUM_ELAPSED: " ++ fmtFixed 1 r.elapsed ++ "s total elapsed time"], "MEDIUM")
  else st

/-- Criterion 3: execution frequency. -/
def crit_executions (r : TopSqlRow) (st : FilterState) : FilterState :=
  if r.executions ≥ CRITICAL_EXECUTIONS then
    (true, st.2.1 ++ ["HIGH_FREQUENCY: " ++ intStr r.executions ++ " executions"],
      if st.2.2 = "NONE" then "HIGH" else st.2.2)
  else if r.executions ≥ MEDIUM_EXECUTIONS ∧ r.elapsed > 10 then
    (true, st.2.1 ++ ["MEDIUM_FREQUENCY: " ++ intStr r.executions ++
        " executions causing " ++ fmtFixed 1 r.elapsed ++ "s load"],
      if st.2.2 = "NONE" then "MEDIUM" else st.2.2)
  else st

/-- Criterion 4: average time per execution. -/
def crit_avg_elapsed (r : TopSqlRow) (st : FilterState) : FilterState :=
  if r.elapsed_per_exec ≥ CRITICAL_AVG_ELAPSED then
    (true, st.2.1 ++ ["SLOW_EXECUTION: " ++ fmtFixed 2 r.elapsed_per_exec ++ "s per execution"],
      if st.2.2 ≠ "HIGH" then "HIGH" else st.2.2)
  else if r.elapsed_per_exec ≥ MEDIUM_AVG_ELAPSED ∧ r.executions > 50 then
    (true, st.2.1 ++ ["SLOW_AVG_EXEC: " ++ fmtFixed 2 r.elapsed_per_exec ++ "s per execution"],
      if st.2.2 = "NONE" then "MEDIUM" else st.2.2)
  else st

/-- Criterion 5: CPU percentage. -/
def crit_cpu_pct (r : TopSqlRow) (st : FilterState) : FilterState :=
  if r.pctcpu ≥ HIGH_CPU_PERCENTAGE then
    (true, st.2.1 ++ ["HIGH_CPU_PCT: " ++ fmtFixed 1 r.pctcpu ++ "% CPU utilization"],
      if st.2.2 ≠ "HIGH" then "HIGH" else st.2.2)
  else if r.pctcpu ≥ MEDIUM_CPU_PERCENTAGE then
    (true, st.2.1 ++ ["MEDIUM_CPU_PCT: " ++ fmtFixed 1 r.pctcpu ++ "% CPU utilization"],
      if st.2.2 = "NONE" then "MEDIUM" else st.2.2)
  else st

/-- Criterion 6: workload contribution. -/
def crit_workload (r : TopSqlRow) (st : FilterState) : FilterState :=
  if r.pcttotal ≥ CRITICAL_WORKLOAD_PCT then
    (true, st.2.1 ++ ["DOMINANT_WORKLOAD: " ++ fmtFixed 1 r.pcttotal ++ "% of total DB time"],
      "HIGH")
  else if r.pcttotal ≥ HIGH_WORKLOAD_PCT then
    (true, st.2.1 ++ ["HIGH_WORKLOAD_IMPACT: " ++ fmtFixed 1 r.pcttotal ++ "% of total DB time"],
      if st.2.2 = "NONE" then "MEDIUM" else st.2.2)
  else st

/-- Criterion 7: IO waits. -/
def crit_io (r : TopSqlRow) (st : FilterState) : FilterState :=
  if r.pctio ≥ 40 then
    (true, st.2.1 ++ ["HIGH_IO_WAIT: " ++ fmtFixed 1 r.pctio ++ "% IO wait time"],
      if st.2.2 = "NONE" then "MEDIUM" else st.2.2)
  else st

/-- Criterion 8: combined CPU time. -/
def crit_cpu_time (r : TopSqlRow) (st : FilterState) : FilterState :=
  if r.cpu ≥ CRITICAL_CPU_TIME then
    (true, st.2.1 ++ ["CRITICAL_CPU: " ++ fmtFixed 1 r.cpu ++ "s CPU time"], "HIGH")
  else if r.cpu ≥ HIGH_CPU_TIME ∧ r.elapsed > 30 then
    (true, st.2.1 ++ ["HIGH_CPU: " ++ fmtFixed 1 r.cpu ++ "s CPU time"],
      if st.2.2 = "NONE" then "MEDIUM" else st.2.2)
  else st

/-- The complete per-row criteria chain. -/
def row_filter_state (r : TopSqlRow) : FilterState :=
  crit_cpu_time r (crit_io r (crit_workload r (crit_cpu_pct r
    (crit_avg_elapsed r (crit_executions r (crit_elapsed r (false, [], "NONE")))))))

/-- Severity the filter assigns to a row. -/
def row_severity (r : TopSqlRow) : String := (row_filter_state r).2.2

/-- Per-row evaluation: `some` finding when any criterion fired. -/
def eval_row (idx : ℕ) (r : TopSqlRow) (sql_text : Option String) : Option Finding :=
  let st := row_filter_state r
  if st.1 then
    some
      { sql_id := r.sql_id.getD ("SQL_" ++ natStr idx)
        sql_text := sql_text
        metrics := r
        problem_reasons := st.2.1
        severity := st.2.2
        dba_score := calculate_dba_score r.elapsed r.cpu r.executions r.pcttotal r.elapsed_per_exec }
  else Option.none

/-- Stable descending insertion by `dba_score` (Python's stable
`sort(key=..., reverse=True)`). -/
def insert_finding_desc (x : Finding) : List Finding → List Finding
  | [] => [x]
  | y :: ys => if x.dba_score > y.dba_score then x :: y :: ys else y :: insert_finding_desc x ys

def sort_findings_desc (l : List Finding) : List Finding :=
  l.foldl (fun acc x => insert_finding_desc x acc) []

/-- The problematic candidates of an input list, in input order. -/
def problematic_candidates (top_sql : List TopSqlRow) (raw_sql : List (Option String)) :
    List Finding :=
  top_sql.enum.filterMap (fun p => eval_row p.1 p.2 (raw_sql.getD p.1 Option.none))

/-- `DBAExpertEngine._filter_problematic_sql`: detect, score, sort
descending and truncate to the 1–3 most problematic findings. -/
def filter_problematic_sql (top_sql : List TopSqlRow)
    (raw_sql : List (Option String) := []) : List Finding :=
  let problematic := sort_findings_desc (problematic_candidates top_sql raw_sql)
  if problematic.length = 0 then []
  else
    let max_return := min 3 problematic.length
    let max_return :=
      if max_return = 3 ∧
          (problematic.getD 2 default).dba_score <
            qMul (problematic.getD 0 default).dba_score (mkRat 2 5) then 2
      else max_return
    let max_return :=
      if max_return > 1 ∧
          ((problematic.take max_return).countP
            (fun p => p.severity = "HIGH" ∨ p.severity = "CRITICAL")) = 1 ∧
          ¬ ((problematic.getD 1 default).severity = "HIGH" ∨
             (problematic.getD 1 default).severity = "MEDIUM" ∨
             (problematic.getD 1 default).severity = "CRITICAL") then 1
      else max_return
    problematic.take max_return

/-!
Embedding of `UnifiedMetricsCalculator._compute_derived_metrics` and the
time-window formatting (unified_metrics.py, time_window_detector.py).
-/

/-- `AWRMetrics` dataclass (the CSV bookkeeping field is kept as-is). -/
structure AWRMetrics where
  total_elapsed_time_s : ℚ := 0
  total_executions : ℤ := 0
  total_cpu_time_s : ℚ := 0
  db_time_s : ℚ := 0
  db_cpu_time_s : ℚ := 0
  io_wait_time_s : ℚ := 0
  snapshot_elapsed_s : ℚ := 0
  cpu_cores : ℤ := 8
  instance_cpu_busy_pct : Option ℚ := Option.none
  host_cpu_idle_pct : Option ℚ := Option.none
  cpu_percentage : ℚ := 0
  io_wait_percentage : ℚ := 0
  time_window_display : String := "--"
  is_valid : Bool := false
  source_csv_files : List String := []
  deriving DecidableEq

/-- `UnifiedMetricsCalculator._compute_derived_metrics`: workload CPU
percentage in strict priority and IO-wait percentage. -/
def compute_derived_metrics (m : AWRMetrics) : AWRMetrics :=
  let cpu_percentage :=
    match m.instance_cpu_busy_pct with
    | some icb => pyMin 100 (pyMax 0 (pyRound 1 icb))
    | Option.none =>
      match m.host_cpu_idle_pct with
      | some idle => pyMin 100 (pyMax 0 (pyRound 1 (qSub 100 idle)))
      | Option.none =>
        if m.db_cpu_time_s > 0 ∧ m.snapshot_elapsed_s > 0 then
          pyMin 100 (pyMax 0 (pyRound 1
            (qMul (qDiv m.db_cpu_time_s (qMul m.snapshot_elapsed_s ((m.cpu_cores : ℤ) : ℚ))) 100)))
        else 0
  let io_wait_percentage :=
    if m.db_time_s > 0 then
      pyMin 100 (pyRound 1 (qMul (qDiv m.io_wait_time_s m.db_time_s) 100))
    else if m.total_elapsed_time_s > 0 ∧ m.io_wait_time_s > 0 then
      pyMin 100 (pyRound 1 (qMul (qDiv m.io_wait_time_s m.total_elapsed_time_s) 100))
    else 0
  { m with cpu_percentage := cpu_percentage, io_wait_percentage := io_wait_percentage }

/-- A wall-clock time of day (seconds of the source datetimes do not affect
either display path). -/
structure ClockTime where
  hour : ℕ
  minute : ℕ
  deriving DecidableEq

/-- Python `dt.strftime('%I:%M %p').lstrip('0')`. -/
def strftimeClock (t : ClockTime) : String :=
  let h12 := if t.hour % 12 = 0 then 12 else t.hour % 12
  let ampm := if t.hour % 24 < 12 then "AM" else "PM"
  lstripZeros (padZeros 2 h12 ++ ":" ++ padZeros 2 t.minute ++ " " ++ ampm)

/-- `UnifiedMetricsCalculator._extract_html_metadata`, time-window part:
the display is formatted directly from the parsed begin/end times. -/
def time_window_display_calc (begin_t end_t : ClockTime) : String :=
  strftimeClock begin_t ++ " - " ++ strftimeClock end_t

/-- `TimeWindowDetector._round_time_to_interval` (default interval 30):
round the minute half-up to the nearest interval, rolling into the next
hour on overflow. -/
def round_time_to_interval (t : ClockTime) (interval_minutes : ℕ := 30) : ClockTime :=
  let half_interval := interval_minutes / 2
  let rounded_minute := (t.minute + half_interval) / interval_minutes * interval_minutes
  if rounded_minute ≥ 60 then { hour := (t.hour + 1) % 24, minute := 0 }
  else { hour := t.hour, minute := rounded_minute }

/-- `TimeWindowDetector` display window: the only place the half-up
30-minute rounding happens. -/
def detector_display_window (begin_t end_t : ClockTime) : String :=
  strftimeClock (round_time_to_interval begin_t 30) ++ " - " ++
    strftimeClock (round_time_to_interval end_t 30)

/-!
Claim theorems.
-/

/-- C1: Decision-gate classification.  `evaluate` returns `BATCH_SQL` iff
`avg_exec_time > 5 ∧ executions < 50`; otherwise `CHATTY_SQL` iff
`executions > 1000 ∧ avg_exec_time < 0.1`; otherwise `IO_BOUND_SQL` iff
`io_wait_pct > 70`; otherwise `CPU_BOUND_SQL` iff
`cpu_pct > 70 ∧ io_wait_pct < 30`; otherwise `MIXED_PROFILE_SQL` iff at
least 3 of the five concerning traits hold; otherwise `LOW_PRIORITY` —
gates tried in this order, first match wins. -/
theorem c1_gate_classification (s : NormalizedSignals) :
    ((evaluate s).category = .BATCH_SQL ↔
      (s.avg_exec_time > 5 ∧ s.executions < 50)) ∧
    (¬ (s.avg_exec_time > 5 ∧ s.executions < 50) →
      ((evaluate s).category = .CHATTY_SQL ↔
        (s.executions > 1000 ∧ s.avg_exec_time < mkRat 1 10))) ∧
    (¬ (s.avg_exec_time > 5 ∧ s.executions < 50) →
      ¬ (s.executions > 1000 ∧ s.avg_exec_time < mkRat 1 10) →
      ((evaluate s).category = .IO_BOUND_SQL ↔ s.io_wait_pct > 70)) ∧
    (¬ (s.avg_exec_time > 5 ∧ s.executions < 50) →
      ¬ (s.executions > 1000 ∧ s.avg_exec_time < mkRat 1 10) →
      ¬ (s.io_wait_pct > 70) →
      ((evaluate s).category = .CPU_BOUND_SQL ↔
        (s.cpu_pct > 70 ∧ s.io_wait_pct < 30))) ∧
    (¬ (s.avg_exec_time > 5 ∧ s.executions < 50) →
      ¬ (s.executions > 1000 ∧ s.avg_exec_time < mkRat 1 10) →
      ¬ (s.io_wait_pct > 70) →
      ¬ (s.cpu_pct > 70 ∧ s.io_wait_pct < 30) →
      ((evaluate s).category = .MIXED_PROFILE_SQL ↔
        3 ≤ mixed_concerning_traits s)) ∧
    (¬ (s.avg_exec_time > 5 ∧ s.executions < 50) →
      ¬ (s.executions > 1000 ∧ s.avg_exec_time < mkRat 1 10) →
      ¬ (s.io_wait_pct > 70) →
      ¬ (s.cpu_pct > 70 ∧ s.io_wait_pct < 30) →
      ¬ (3 ≤ mixed_concerning_traits s) →
      (evaluate s).category = .LOW_PRIORITY) := by
  rw [show (evaluate s).category =
      (if is_batch_sql s then SQLCategory.BATCH_SQL
       else if is_chatty_sql s then .CHATTY_SQL
       else if is_io_bound_sql s then .IO_BOUND_SQL
       else if is_cpu_bound_sql s then .CPU_BOUND_SQL
       else if is_mixed_profile_sql s then .MIXED_PROFILE_SQL
       else .LOW_PRIORITY) from by unfold evaluate; split_ifs <;> rfl]
  split_ifs with h1 h2 h3 h4 h5
  · exact ⟨iff_of_true rfl h1, fun hn => absurd h1 hn, fun hn _ => absurd h1 hn,
      fun hn _ _ => absurd h1 hn, fun hn _ _ _ => absurd h1 hn,
      fun hn _ _ _ _ => absurd h1 hn⟩
  · exact ⟨iff_of_false (by decide) h1,
      fun _ => iff_of_true rfl h2, fun _ hn => absurd h2 hn,
      fun _ hn _ => absurd h2 hn, fun _ hn _ _ => absurd h2 hn,
      fun _ hn _ _ _ => absurd h2 hn⟩
  · exact ⟨iff_of_false (by decide) h1,
      fun _ => iff_of_false (by decide) h2,
      fun _ _ => iff_of_true rfl h3, fun _ _ hn => absurd h3 hn,
      fun _ _ hn _ => absurd h3 hn, fun _ _ hn _ _ => absurd h3 hn⟩
  · exact ⟨iff_of_false (by decide) h1,
      fun _ => iff_of_false (by decide) h2,
      fun _ _ => iff_of_false (by decide) h3,
      fun _ _ _ => iff_of_true rfl h4, fun _ _ _ hn => absurd h4 hn,
      fun _ _ _ hn _ => absurd h4 hn⟩
  · exact ⟨iff_of_false (by decide) h1,
      fun _ => iff_of_false (by decide) h2,
      fun _ _ => iff_of_false (by decide) h3,
      fun _ _ _ => iff_of_false (by decide) h4,
      fun _ _ _ _ => iff_of_true rfl h5, fun _ _ _ _ hn => absurd h5 hn⟩
  · exact ⟨iff_of_false (by decide) h1,
      fun _ => iff_of_false (by decide) h2,
      fun _ _ => iff_of_false (by decide) h3,
      fun _ _ _ => iff_of_false (by decide) h4,
      fun _ _ _ _ => iff_of_false (by decide) h5,
      fun _ _ _ _ _ => rfl⟩

/-- A batch-profile signal block used by concrete instantiations. -/
def sigBatch : NormalizedSignals :=
  { sql_id := "B1", executions := 5, total_elapsed := 50, avg_exec_time := 10,
    cpu_time := 0, cpu_pct := 0, io_wait_pct := 0, db_time_pct := 0 }

/-- A signal block that matches no gate. -/
def sigLow : NormalizedSignals :=
  { sql_id := "L1", executions := 5, total_elapsed := 1, avg_exec_time := mkRat 1 5,
    cpu_time := 0, cpu_pct := 0, io_wait_pct := 0, db_time_pct := 0 }

/-- C1 witness: a batch signal and one that matches no gate. -/
theorem c1_gate_classification_witness :
    (evaluate sigBatch).category = .BATCH_SQL ∧
    (evaluate sigLow).category = .LOW_PRIORITY := by
  constructor
  · exact (c1_gate_classification sigBatch).1.mpr (by decide)
  · exact (c1_gate_classification sigLow).2.2.2.2.2 (by decide) (by decide) (by decide)
      (by decide) (by decide)


/-!
String-containment infrastructure: `strContains` finds a needle that occurs
as a chunk of an append chain.  Used for the fingerprint and advisor
time-limit theorems.
-/

theorem isPrefixOf_append_extend (l m n : List Char) (h : l.isPrefixOf m = true) :
    l.isPrefixOf (m ++ n) = true := by
  rw [List.isPrefixOf_iff_prefix] at h ⊢
  exact h.trans (List.prefix_append m n)

theorem listContainsSub_self (l : List Char) (h : l ≠ []) :
    listContainsSub l l = true := by
  match l, h with
  | c :: rest, _ =>
    simp [listContainsSub, List.isPrefixOf_iff_prefix]

theorem listContainsSub_extend_l (n a b : List Char)
    (h : listContainsSub n b = true) : listContainsSub n (a ++ b) = true := by
  induction a with
  | nil => exact h
  | cons c a ih =>
    rw [List.cons_append]
    unfold listContainsSub
    split
    · rfl
    · exact ih

theorem listContainsSub_extend_r (n a b : List Char)
    (h : listContainsSub n a = true) : listContainsSub n (a ++ b) = true := by
  induction a with
  | nil => exact absurd h (by simp [listContainsSub])
  | cons c a ih =>
    rw [List.cons_append]
    unfold listContainsSub at h ⊢
    by_cases hp : n.isPrefixOf (c :: a) = true
    · rw [if_pos (by rw [← List.cons_append]
                     exact isPrefixOf_append_extend n (c :: a) b hp)]
    · rw [if_neg hp] at h
      split
      · rfl
      · exact ih h

theorem strContains_extend_l (a b n : String) (h : strContains b n = true) :
    strContains (a ++ b) n = true := by
  unfold strContains at h ⊢
  simp only [Bool.or_eq_true] at h ⊢
  rcases h with h | h
  · exact Or.inl h
  · rw [String.data_append]
    exact Or.inr (listContainsSub_extend_l _ _ _ h)

theorem strContains_extend_r (a b n : String) (h : strContains a n = true) :
    strContains (a ++ b) n = true := by
  unfold strContains at h ⊢
  simp only [Bool.or_eq_true] at h ⊢
  rcases h with h | h
  · exact Or.inl h
  · rw [String.data_append]
    exact Or.inr (listContainsSub_extend_r _ _ _ h)

theorem strContains_self (n : String) : strContains n n = true := by
  unfold strContains
  simp only [Bool.or_eq_true]
  cases h : n.data with
  | nil => exact Or.inl rfl
  | cons c rest =>
    exact Or.inr (listContainsSub_self _ (List.cons_ne_nil c rest))

/-- A needle that is a whole chunk of an append chain is contained. -/
theorem strContains_chunk (a n b : String) : strContains (a ++ n ++ b) n = true :=
  strContains_extend_r _ _ _ (strContains_extend_l _ _ _ (strContains_self n))


/-!
Fingerprint facts: every artifact emitted by any category generator carries
`create_signal_fingerprint s` in its `signal_fingerprint` field.
-/

theorem fp_io_bound (s : NormalizedSignals) (d : DecisionResult) :
    ∀ g ∈ generate_io_bound_commands_dba_style s d,
      g.signal_fingerprint = create_signal_fingerprint s := by
  intro g hg
  unfold generate_io_bound_commands_dba_style at hg
  split_ifs at hg <;>
    simp only [List.append_nil, List.nil_append, List.cons_append, List.mem_cons,
      List.not_mem_nil, or_false] at hg <;>
    (repeat' (first | (rcases hg with rfl | hg) | (subst hg))) <;> rfl

theorem fp_cpu_bound (s : NormalizedSignals) (d : DecisionResult) :
    ∀ g ∈ generate_cpu_bound_commands_dba_style s d,
      g.signal_fingerprint = create_signal_fingerprint s := by
  intro g hg
  unfold generate_cpu_bound_commands_dba_style at hg
  split_ifs at hg <;>
    simp only [List.append_nil, List.nil_append, List.cons_append, List.mem_cons,
      List.not_mem_nil, or_false] at hg <;>
    (repeat' (first | (rcases hg with rfl | hg) | (subst hg))) <;> rfl

theorem fp_chatty (s : NormalizedSignals) (d : DecisionResult) :
    ∀ g ∈ generate_chatty_sql_commands_dba_style s d,
      g.signal_fingerprint = create_signal_fingerprint s := by
  intro g hg
  unfold generate_chatty_sql_commands_dba_style at hg
  simp only [List.mem_cons, List.not_mem_nil, or_false] at hg
  (repeat' (first | (rcases hg with rfl | hg) | (subst hg))) <;> rfl

theorem fp_batch (s : NormalizedSignals) (d : DecisionResult) :
    ∀ g ∈ generate_batch_sql_commands_dba_style s d,
      g.signal_fingerprint = create_signal_fingerprint s := by
  intro g hg
  unfold generate_batch_sql_commands_dba_style at hg
  split_ifs at hg <;>
    simp only [List.append_nil, List.nil_append, List.cons_append, List.mem_cons,
      List.not_mem_nil, or_false] at hg <;>
    (repeat' (first | (rcases hg with rfl | hg) | (subst hg))) <;> rfl

theorem fp_mixed (s : NormalizedSignals) (d : DecisionResult) :
    ∀ g ∈ generate_mixed_profile_commands s d,
      g.signal_fingerprint = create_signal_fingerprint s := by
  intro g hg
  unfold generate_mixed_profile_commands at hg
  split_ifs at hg <;>
    simp only [List.append_nil, List.nil_append, List.cons_append, List.mem_cons,
      List.not_mem_nil, or_false] at hg <;>
    (repeat' (first | (rcases hg with rfl | hg) | (subst hg))) <;> rfl

theorem fp_monitoring (s : NormalizedSignals) (d : DecisionResult) :
    ∀ g ∈ generate_monitoring_commands s d,
      g.signal_fingerprint = create_signal_fingerprint s := by
  intro g hg
  unfold generate_monitoring_commands at hg
  simp only [List.mem_cons, List.not_mem_nil, or_false] at hg
  subst hg
  rfl

/-- Every decision creator stores its input signals unchanged. -/
theorem evaluate_signals (s : NormalizedSignals) : (evaluate s).signals = s := by
  unfold evaluate
  split_ifs <;> rfl

theorem fp_generate_all (d : DecisionResult) :
    ∀ g ∈ generate_all d, g.signal_fingerprint = create_signal_fingerprint d.signals := by
  intro g hg
  unfold generate_all at hg
  cases hcat : d.category <;> rw [hcat] at hg
  · exact fp_batch _ _ g hg
  · exact fp_chatty _ _ g hg
  · exact fp_io_bound _ _ g hg
  · exact fp_cpu_bound _ _ g hg
  · exact fp_mixed _ _ g hg
  · exact fp_monitoring _ _ g hg

/-- `generate_all` always emits at least one artifact. -/
theorem generate_all_cons (d : DecisionResult) :
    ∃ g gs, generate_all d = g :: gs := by
  unfold generate_all
  cases hcat : d.category <;> exact ⟨_, _, rfl⟩


/-- A decision whose gate evaluation lands on `CHATTY_SQL` is exactly the
chatty creator's result. -/
theorem evaluate_eq_chatty (s : NormalizedSignals)
    (h : (evaluate s).category = .CHATTY_SQL) :
    evaluate s = create_chatty_sql_decision s := by
  unfold evaluate at h ⊢
  split_ifs at h ⊢ <;> first | rfl | exact nomatch h

/-- C4 (confirmed): for every Normalized Signals value whose decision
category is `CHATTY_SQL`, no artifact returned by `generate_all` has action
`INDEX_CREATION`, `SQL_TUNING_ADVISOR`, `SQL_ACCESS_ADVISOR`, or
`PLAN_ANALYSIS`. -/
theorem c4_chatty_suppression (s : NormalizedSignals)
    (hcat : (evaluate s).category = .CHATTY_SQL) :
    ∀ g ∈ generate_all (evaluate s),
      g.action ∉ (["INDEX_CREATION", "SQL_TUNING_ADVISOR",
        "SQL_ACCESS_ADVISOR", "PLAN_ANALYSIS"] : List String) := by
  intro g hg
  rw [evaluate_eq_chatty s hcat] at hg
  have hmap : (generate_all (create_chatty_sql_decision s)).map GeneratedSQL.action =
      ["EXECUTION_FREQUENCY_ANALYSIS", "CURSOR_EFFICIENCY_CHECK",
       "APPLICATION_PATTERN_ANALYSIS", "DBA_DECISION_NOTICE"] := rfl
  have hmem := List.mem_map_of_mem GeneratedSQL.action hg
  rw [hmap] at hmem
  simp only [List.mem_cons, List.not_mem_nil, or_false] at hmem
  rcases hmem with h | h | h | h <;> rw [h] <;> decide

/-- A chatty-profile signal block (executions > 1000, avg < 0.1 s). -/
def sigChatty : NormalizedSignals :=
  { sql_id := "CH1", executions := 5000, total_elapsed := 10,
    avg_exec_time := mkRat 1 100, cpu_time := 0, cpu_pct := 0,
    io_wait_pct := 0, db_time_pct := 0 }

/-- C4 witness: a concrete chatty signal. -/
theorem c4_chatty_suppression_witness :
    (evaluate sigChatty).category = .CHATTY_SQL ∧
    ∀ g ∈ generate_all (evaluate sigChatty),
      g.action ∉ (["INDEX_CREATION", "SQL_TUNING_ADVISOR",
        "SQL_ACCESS_ADVISOR", "PLAN_ANALYSIS"] : List String) :=
  ⟨by decide, c4_chatty_suppression sigChatty (by decide)⟩


/-!
C2: the dynamic-generation law.  As stated it fails — two LOW-priority
signal blocks whose `io_wait_pct` differ only below the 0.1% formatting
granularity produce byte-identical artifact lists.  The provable law is:
whenever the signal fingerprints differ, the emitted fingerprint columns
differ.
-/

/-- A LOW-priority signal block with a tiny `io_wait_pct`. -/
def sigC2A : NormalizedSignals :=
  { sql_id := "L1", executions := 5, total_elapsed := 1,
    avg_exec_time := mkRat 1 5, cpu_time := 0, cpu_pct := 0,
    io_wait_pct := mkRat 1 1000, db_time_pct := 0 }

/-- Like `sigC2A` but with `io_wait_pct` doubled (still rounding to 0.0). -/
def sigC2B : NormalizedSignals :=
  { sql_id := "L1", executions := 5, total_elapsed := 1,
    avg_exec_time := mkRat 1 5, cpu_time := 0, cpu_pct := 0,
    io_wait_pct := mkRat 2 1000, db_time_pct := 0 }

/-- Like `sigC2A` but with `io_wait_pct = 50`, changing the fingerprint. -/
def sigC2W : NormalizedSignals :=
  { sql_id := "L1", executions := 5, total_elapsed := 1,
    avg_exec_time := mkRat 1 5, cpu_time := 0, cpu_pct := 0,
    io_wait_pct := 50, db_time_pct := 0 }

/-- C2 (counterexample): two signal blocks with the same `sql_id` that
differ in `io_wait_pct` yet get identical decisions' categories and
byte-identical `generate_all` output (equal artifact count, text, and
fingerprints). -/
theorem c2_dynamic_generation_counterexample :
    sigC2A.sql_id = sigC2B.sql_id ∧
    sigC2A.io_wait_pct ≠ sigC2B.io_wait_pct ∧
    (evaluate sigC2A).category = (evaluate sigC2B).category ∧
    generate_all (evaluate sigC2A) = generate_all (evaluate sigC2B) :=
  ⟨rfl, by decide, by decide, by decide⟩

/-- C2 (amended): if the two signal blocks' fingerprints differ, the
fingerprint columns of the generated artifact lists differ. -/
theorem c2_dynamic_generation (s1 s2 : NormalizedSignals)
    (hid : s1.sql_id = s2.sql_id)
    (hfp : create_signal_fingerprint s1 ≠ create_signal_fingerprint s2) :
    (generate_all (evaluate s1)).map GeneratedSQL.signal_fingerprint ≠
      (generate_all (evaluate s2)).map GeneratedSQL.signal_fingerprint := by
  intro heq
  obtain ⟨g1, gs1, h1⟩ := generate_all_cons (evaluate s1)
  obtain ⟨g2, gs2, h2⟩ := generate_all_cons (evaluate s2)
  have e1 : g1.signal_fingerprint = create_signal_fingerprint s1 := by
    have := fp_generate_all (evaluate s1) g1 (by rw [h1]; exact List.mem_cons_self _ _)
    rwa [evaluate_signals] at this
  have e2 : g2.signal_fingerprint = create_signal_fingerprint s2 := by
    have := fp_generate_all (evaluate s2) g2 (by rw [h2]; exact List.mem_cons_self _ _)
    rwa [evaluate_signals] at this
  rw [h1, h2] at heq
  simp only [List.map_cons, List.cons.injEq] at heq
  exact hfp (by rw [← e1, ← e2]; exact heq.1)

/-- C2 witness: `sigC2A` and `sigC2W` differ in the fingerprint, so their
artifact lists carry different fingerprint columns. -/
theorem c2_dynamic_generation_witness :
    sigC2A.sql_id = sigC2W.sql_id ∧
    create_signal_fingerprint sigC2A ≠ create_signal_fingerprint sigC2W ∧
    (generate_all (evaluate sigC2A)).map GeneratedSQL.signal_fingerprint ≠
      (generate_all (evaluate sigC2W)).map GeneratedSQL.signal_fingerprint :=
  ⟨rfl, by decide, c2_dynamic_generation sigC2A sigC2W rfl (by decide)⟩

/-!
C3: the fingerprint round-trip.  As stated it fails — only the dynamic
XPLAN artifact embeds the `Signal Fingerprint:` comment line in its SQL
body; e.g. the LOW-priority monitoring artifact's body has no such line.
Every artifact does carry the exact fingerprint string in its
`signal_fingerprint` metadata field.
-/

/-- C3 (counterexample): the baseline-monitoring artifact is the only
artifact generated for `sigLow`, and its SQL body does not contain the
`Signal Fingerprint:` line. -/
theorem c3_fingerprint_roundtrip_counterexample :
    generate_all (evaluate sigLow) = [generate_baseline_monitoring sigLow] ∧
    strContains (generate_baseline_monitoring sigLow).sql
      ("Signal Fingerprint: " ++ create_signal_fingerprint sigLow) = false :=
  ⟨by decide, by decide⟩

/-- C3 (amended): every artifact of `generate_all` carries the exact
fingerprint string `exec=<N>|avgtime=<F.4>|cpu=<F.1>|io=<F.1>` in its
`signal_fingerprint` field, and the dynamic XPLAN artifact also embeds
`Signal Fingerprint: <fp>` in its SQL body. -/
theorem c3_fingerprint_roundtrip (s : NormalizedSignals) :
    (∀ g ∈ generate_all (evaluate s),
      g.signal_fingerprint =
        "exec=" ++ intStr s.executions ++ "|avgtime=" ++
          fmtFixed 4 s.avg_exec_time ++ "|cpu=" ++ fmtFixed 1 s.cpu_pct ++
          "|io=" ++ fmtFixed 1 s.io_wait_pct) ∧
    (∀ c : SQLCategory,
      strContains (generate_dynamic_xplan s c).sql
        ("Signal Fingerprint: " ++ create_signal_fingerprint s) = true) := by
  constructor
  · intro g hg
    have := fp_generate_all (evaluate s) g hg
    rwa [evaluate_signals] at this
  · intro c
    exact strContains_chunk _ _ _

/-- C3 witness: the fingerprint field of the monitoring artifact for
`sigLow`, evaluated concretely. -/
theorem c3_fingerprint_roundtrip_witness :
    (generate_baseline_monitoring sigLow).signal_fingerprint =
      "exec=" ++ intStr sigLow.executions ++ "|avgtime=" ++
        fmtFixed 4 sigLow.avg_exec_time ++ "|cpu=" ++ fmtFixed 1 sigLow.cpu_pct ++
        "|io=" ++ fmtFixed 1 sigLow.io_wait_pct :=
  (c3_fingerprint_roundtrip sigLow).1 (generate_baseline_monitoring sigLow) (by decide)


/-!
C9: advisor time limits.  `_calculate_advisor_time_limit` implements the
600/300/180/60 tiers, and the IO-focused and full Access Advisor builders
embed its value; but `_generate_access_advisor_limited` hardcodes 120 and
`_generate_tuning_advisor_cpu` uses its own 600/300/120 tiers keyed on
`cpu_pct`, so the claimed formula does not govern every advisor artifact.
-/

/-- A CPU-bound signal block whose formula time limit (60s) differs from
the CPU tier (300s). -/
def sigCpu : NormalizedSignals :=
  { sql_id := "CP1", executions := 10, total_elapsed := 50, avg_exec_time := 5,
    cpu_time := 40, cpu_pct := 75, io_wait_pct := 20, db_time_pct := 0 }

/-- C9 (counterexample): for `sigCpu` the claimed formula yields 60 s, yet
the SQL Tuning Advisor artifact that `generate_all` emits embeds a
300-second time limit and nowhere a 60-second one. -/
theorem c9_advisor_time_limit_counterexample :
    calculate_advisor_time_limit sigCpu = 60 ∧
    generate_tuning_advisor_cpu sigCpu ∈ generate_all (evaluate sigCpu) ∧
    strContains (generate_tuning_advisor_cpu sigCpu).sql
      "\n    time_limit   => 300" = true ∧
    strContains (generate_tuning_advisor_cpu sigCpu).sql
      "time_limit   => 60" = false := by
  have hlist : generate_all (evaluate sigCpu) =
      [cpu_cost_cmd sigCpu (evaluate sigCpu), cpu_join_cmd sigCpu (evaluate sigCpu),
       cpu_xplan_confirm_cmd sigCpu (evaluate sigCpu),
       generate_tuning_advisor_cpu sigCpu] := rfl
  refine ⟨by decide, ?_, strContains_chunk _ _ _, by decide⟩
  rw [hlist]
  exact List.mem_cons_of_mem _ (List.mem_cons_of_mem _
    (List.mem_cons_of_mem _ (List.mem_cons_self _ _)))

/-- C9 (amended): `_calculate_advisor_time_limit` implements the claimed
600/300/180/60 tiers and its value is embedded in the Access Advisor
artifacts (IO-focused and full); the LIMITED Access Advisor hardcodes
120 s and the CPU tuning advisor uses its own 600/300/120 CPU tiers. -/
theorem c9_advisor_time_limit (s : NormalizedSignals) :
    calculate_advisor_time_limit s =
      (if s.total_elapsed > 500 ∨ s.io_wait_pct > 90 then 600
       else if s.total_elapsed > 100 ∨ s.io_wait_pct > 70 then 300
       else if s.avg_exec_time > 10 then 180 else 60) ∧
    cpu_tuning_time_limit s =
      (if s.cpu_pct ≥ 90 then 600 else if s.cpu_pct ≥ 70 then 300 else 120) ∧
    strContains (generate_access_advisor_io_focused s).sql
      ("\n    value     => " ++ intStr (calculate_advisor_time_limit s)) = true ∧
    strContains (generate_access_advisor_full s).sql
      ("\n    value     => " ++ intStr (calculate_advisor_time_limit s)) = true ∧
    strContains (generate_access_advisor_limited s).sql
      "\n    parameter => 'TIME_LIMIT',\n    value     => 120" = true ∧
    strContains (generate_tuning_advisor_cpu s).sql
      ("\n    time_limit   => " ++ intStr (cpu_tuning_time_limit s)) = true :=
  ⟨rfl, rfl, strContains_chunk _ _ _, strContains_chunk _ _ _,
    strContains_chunk _ _ _, strContains_chunk _ _ _⟩

/-- C9 witness: the IO-focused advisor for `sigBatch` embeds the formula's
time limit. -/
theorem c9_advisor_time_limit_witness :
    strContains (generate_access_advisor_io_focused sigBatch).sql
      ("\n    value     => " ++ intStr (calculate_advisor_time_limit sigBatch)) = true :=
  (c9_advisor_time_limit sigBatch).2.2.1


/-!
C10: the time-window display.  The Unified Metrics calculator formats the
raw begin/end times directly (`strftime('%I:%M %p').lstrip('0')`); the
half-up 30-minute rounding exists only in the Time Window Detector's
display path.
-/

/-- C10 (counterexample): for begin 10:17 and end 11:43 the calculator
displays the raw times, which differ from the detector's rounded display. -/
theorem c10_time_window_display_counterexample :
    time_window_display_calc ⟨10, 17⟩ ⟨11, 43⟩ = "10:17 AM - 11:43 AM" ∧
    detector_display_window ⟨10, 17⟩ ⟨11, 43⟩ = "10:30 AM - 11:30 AM" ∧
    time_window_display_calc ⟨10, 17⟩ ⟨11, 43⟩ ≠
      detector_display_window ⟨10, 17⟩ ⟨11, 43⟩ :=
  ⟨rfl, rfl, by decide⟩

/-- C10 (amended): the calculator's `time_window_display` is the raw
`H:MM AM/PM - H:MM AM/PM` formatting of begin/end with no rounding;
the detector's display path always lands on a multiple of 30 minutes,
and the two paths agree exactly when both raw minutes already are
multiples of 30. -/
theorem c10_time_window_display (b e : ClockTime)
    (hb : b.minute < 60) (he : e.minute < 60) :
    time_window_display_calc b e = strftimeClock b ++ " - " ++ strftimeClock e ∧
    (round_time_to_interval b 30).minute % 30 = 0 ∧
    (b.minute % 30 = 0 ∧ e.minute % 30 = 0 →
      detector_display_window b e = time_window_display_calc b e) := by
  refine ⟨rfl, ?_, ?_⟩
  · unfold round_time_to_interval
    dsimp only
    split
    · rfl
    · exact Nat.mul_mod_left _ _
  · rintro ⟨hbm, hem⟩
    rcases b with ⟨bh, bm⟩
    rcases e with ⟨eh, em⟩
    simp only at hbm hem hb he
    have hb0 : bm = 0 ∨ bm = 30 := by omega
    have he0 : em = 0 ∨ em = 30 := by omega
    have hrb : round_time_to_interval ⟨bh, bm⟩ 30 = ⟨bh, bm⟩ := by
      rcases hb0 with rfl | rfl <;> norm_num [round_time_to_interval]
    have hre : round_time_to_interval ⟨eh, em⟩ 30 = ⟨eh, em⟩ := by
      rcases he0 with rfl | rfl <;> norm_num [round_time_to_interval]
    unfold detector_display_window time_window_display_calc
    rw [hrb, hre]

/-- C10 witness: at 10:30 and 11:00 the two display paths agree. -/
theorem c10_time_window_display_witness :
    (10 : ℕ) < 60 ∧
    detector_display_window ⟨10, 30⟩ ⟨11, 0⟩ =
      time_window_display_calc ⟨10, 30⟩ ⟨11, 0⟩ :=
  ⟨by decide, (c10_time_window_display ⟨10, 30⟩ ⟨11, 0⟩ (by decide) (by decide)).2.2
    ⟨by decide, by decide⟩⟩

/-!
C8: workload CPU derivation.  The priority chain and the [0, 100] clamp on
`cpu_percentage` hold, but each branch also rounds to one decimal (so
`cpu_percentage` need not equal `instance_cpu_busy_pct` exactly), and
`io_wait_percentage` is only clamped from above — a negative IO wait time
yields a negative percentage.
-/

/-- The running CPU percentage of `compute_derived_metrics`, exposed. -/
theorem cdm_cpu (m : AWRMetrics) :
    (compute_derived_metrics m).cpu_percentage =
      (match m.instance_cpu_busy_pct with
       | some icb => pyMin 100 (pyMax 0 (pyRound 1 icb))
       | Option.none =>
         match m.host_cpu_idle_pct with
         | some idle => pyMin 100 (pyMax 0 (pyRound 1 (qSub 100 idle)))
         | Option.none =>
           if m.db_cpu_time_s > 0 ∧ m.snapshot_elapsed_s > 0 then
             pyMin 100 (pyMax 0 (pyRound 1
               (qMul (qDiv m.db_cpu_time_s
                 (qMul m.snapshot_elapsed_s ((m.cpu_cores : ℤ) : ℚ))) 100)))
           else 0) := rfl

/-- The running IO-wait percentage of `compute_derived_metrics`, exposed. -/
theorem cdm_io (m : AWRMetrics) :
    (compute_derived_metrics m).io_wait_percentage =
      (if m.db_time_s > 0 then
        pyMin 100 (pyRound 1 (qMul (qDiv m.io_wait_time_s m.db_time_s) 100))
      else if m.total_elapsed_time_s > 0 ∧ m.io_wait_time_s > 0 then
        pyMin 100 (pyRound 1 (qMul (qDiv m.io_wait_time_s m.total_elapsed_time_s) 100))
      else 0) := rfl

/-- Metrics whose instance CPU busy value (50.05%) is not representable at
one decimal. -/
def mC8a : AWRMetrics := { instance_cpu_busy_pct := some (mkRat 1001 20) }

/-- Metrics with a negative IO wait time against a positive DB time. -/
def mC8b : AWRMetrics := { db_time_s := 10, io_wait_time_s := -10 }

/-- C8 (counterexample): `cpu_percentage` is the rounded (not exact)
`instance_cpu_busy_pct`, and `io_wait_percentage` has no lower clamp —
a negative IO wait time produces −100%. -/
theorem c8_cpu_derivation_counterexample :
    mC8a.instance_cpu_busy_pct = some (mkRat 1001 20) ∧
    (compute_derived_metrics mC8a).cpu_percentage ≠ mkRat 1001 20 ∧
    (compute_derived_metrics mC8b).io_wait_percentage = -100 ∧
    (compute_derived_metrics mC8b).io_wait_percentage < 0 :=
  ⟨rfl, by decide, by decide, by decide⟩

/-- C8 (amended): the strict priority chain holds with each branch rounded
to one decimal; `cpu_percentage` is clamped to [0, 100]; the IO branch
formula holds but `io_wait_percentage` is only clamped from above. -/
theorem c8_cpu_derivation (m : AWRMetrics) :
    (∀ icb, m.instance_cpu_busy_pct = some icb →
      (compute_derived_metrics m).cpu_percentage =
        min 100 (max 0 (pyRound 1 icb))) ∧
    (∀ idle, m.instance_cpu_busy_pct = Option.none →
      m.host_cpu_idle_pct = some idle →
      (compute_derived_metrics m).cpu_percentage =
        min 100 (max 0 (pyRound 1 (100 - idle)))) ∧
    (m.instance_cpu_busy_pct = Option.none → m.host_cpu_idle_pct = Option.none →
      m.db_cpu_time_s > 0 → m.snapshot_elapsed_s > 0 →
      (compute_derived_metrics m).cpu_percentage =
        min 100 (max 0 (pyRound 1
          (m.db_cpu_time_s / (m.snapshot_elapsed_s * (m.cpu_cores : ℚ)) * 100)))) ∧
    (m.instance_cpu_busy_pct = Option.none → m.host_cpu_idle_pct = Option.none →
      ¬(m.db_cpu_time_s > 0 ∧ m.snapshot_elapsed_s > 0) →
      (compute_derived_metrics m).cpu_percentage = 0) ∧
    0 ≤ (compute_derived_metrics m).cpu_percentage ∧
    (compute_derived_metrics m).cpu_percentage ≤ 100 ∧
    (m.db_time_s > 0 →
      (compute_derived_metrics m).io_wait_percentage =
        min 100 (pyRound 1 (m.io_wait_time_s / m.db_time_s * 100))) ∧
    (compute_derived_metrics m).io_wait_percentage ≤ 100 := by
  have hbd : ∀ x : ℚ, 0 ≤ min 100 (max 0 x) ∧ min 100 (max 0 x) ≤ 100 :=
    fun x => ⟨le_min (by norm_num) (le_max_left 0 x), min_le_left _ _⟩
  refine ⟨?_, ?_, ?_, ?_, ?_, ?_, ?_, ?_⟩
  · intro icb h
    rw [cdm_cpu, h]
    dsimp only
    rw [pyMin_eq, pyMax_eq]
  · intro idle h1 h2
    rw [cdm_cpu, h1, h2]
    dsimp only
    rw [pyMin_eq, pyMax_eq, qSub_eq]
  · intro h1 h2 h3 h4
    rw [cdm_cpu, h1, h2]
    dsimp only
    rw [if_pos ⟨h3, h4⟩, pyMin_eq, pyMax_eq, qMul_eq, qDiv_eq, qMul_eq]
  · intro h1 h2 h3
    rw [cdm_cpu, h1, h2]
    dsimp only
    rw [if_neg h3]
  · rw [cdm_cpu]
    rcases m.instance_cpu_busy_pct with _ | icb
    all_goals dsimp only
    · rcases m.host_cpu_idle_pct with _ | idle
      all_goals dsimp only
      · split_ifs with h
        · rw [pyMin_eq, pyMax_eq]; exact (hbd _).1
        · norm_num
      · rw [pyMin_eq, pyMax_eq]; exact (hbd _).1
    · rw [pyMin_eq, pyMax_eq]; exact (hbd _).1
  · rw [cdm_cpu]
    rcases m.instance_cpu_busy_pct with _ | icb
    all_goals dsimp only
    · rcases m.host_cpu_idle_pct with _ | idle
      all_goals dsimp only
      · split_ifs with h
        · rw [pyMin_eq, pyMax_eq]; exact (hbd _).2
        · norm_num
      · rw [pyMin_eq, pyMax_eq]; exact (hbd _).2
    · rw [pyMin_eq, pyMax_eq]; exact (hbd _).2
  · intro h
    rw [cdm_io, if_pos h, pyMin_eq, qMul_eq, qDiv_eq]
  · rw [cdm_io]
    split_ifs with h1 h2
    · rw [pyMin_eq]; exact min_le_left _ _
    · rw [pyMin_eq]; exact min_le_left _ _
    · norm_num

/-- C8 witness: a concrete in-range instance-CPU value passes through the
priority chain's first branch. -/
theorem c8_cpu_derivation_witness :
    mC8b.db_time_s > 0 ∧
    (compute_derived_metrics mC8b).io_wait_percentage =
      min 100 (pyRound 1 (mC8b.io_wait_time_s / mC8b.db_time_s * 100)) :=
  ⟨by norm_num [mC8b], (c8_cpu_derivation mC8b).2.2.2.2.2.2.1 (by norm_num [mC8b])⟩


/-!
C5: signal normalization.  `normalize_from_rca` applies no clamping at
all — numeric percentage cells pass through unchanged (including values
above 100 and below 0) — and a non-numeric string cell raises (the
embedded `float()` returns an error) instead of becoming 0.  Missing
cells do default to 0.
-/

/-- A row whose `pctcpu` is 150 (out of the claimed [0, 100] range). -/
def rowC5a : RcaRow := { pctcpu := some (.num 150) }

/-- A row whose `pctio` is −7. -/
def rowC5neg : RcaRow := { pctio := some (.num (-7)) }

/-- A row whose `pctio` is a non-numeric string. -/
def rowC5err : RcaRow := { pctio := some (.str "abc") }

/-- C5 (counterexample): `pctcpu = 150` normalizes to `cpu_pct = 150 > 100`
unclamped, `pctio = −7` normalizes to `io_wait_pct = −7 < 0`, and a
non-numeric `pctio` string raises a `ValueError` instead of becoming 0. -/
theorem c5_signal_clamping_counterexample :
    (normalize_from_rca rowC5a []).toOption.map NormalizedSignals.cpu_pct =
      some 150 ∧
    ¬ (150 : ℚ) ≤ 100 ∧
    (normalize_from_rca rowC5neg []).toOption.map NormalizedSignals.io_wait_pct =
      some (-7) ∧
    normalize_from_rca rowC5err [] =
      .error "ValueError: could not convert string to float" :=
  ⟨rfl, by norm_num, rfl, rfl⟩

/-- C5 (amended): the normalizer clamps nothing — nonzero numeric
percentage cells pass through exactly (whatever their sign or size) and
`elapsed_per_exec` passes into `avg_exec_time` — while a fully missing
row defaults every numeric signal to 0. -/
theorem c5_signal_clamping (pcpu pio epe : ℚ)
    (hp : pcpu ≠ 0) (hi : pio ≠ 0) (he : epe ≠ 0) :
    normalize_from_rca
      { pctcpu := some (.num pcpu), pctio := some (.num pio),
        elapsed_per_exec := some (.num epe) } [] =
      .ok { sql_id := "UNKNOWN", executions := 0, total_elapsed := 0,
            avg_exec_time := epe, cpu_time := 0, cpu_pct := pcpu,
            io_wait_pct := pio, db_time_pct := 0 } ∧
    normalize_from_rca {} [] =
      .ok { sql_id := "UNKNOWN", executions := 0, total_elapsed := 0,
            avg_exec_time := 0, cpu_time := 0, cpu_pct := 0,
            io_wait_pct := 0, db_time_pct := 0 } := by
  constructor
  · unfold normalize_from_rca
    simp [pyGet, pyOr, pyInt, pyFloat, PyVal.truthy, hp, hi, he, bind,
      Except.bind, pyTrunc, pure, Except.pure]
  · rfl

/-- C5 witness: `pctcpu = 150`, `pctio = −7`, `elapsed_per_exec = −5`
pass through the normalizer unchanged. -/
theorem c5_signal_clamping_witness :
    normalize_from_rca
      { pctcpu := some (.num 150), pctio := some (.num (-7)),
        elapsed_per_exec := some (.num (-5)) } [] =
      .ok { sql_id := "UNKNOWN", executions := 0, total_elapsed := 0,
            avg_exec_time := -5, cpu_time := 0, cpu_pct := 150,
            io_wait_pct := -7, db_time_pct := 0 } :=
  (c5_signal_clamping 150 (-7) (-5) (by norm_num) (by norm_num) (by norm_num)).1


/-!
C6/C7 infrastructure: every state the criteria chain can reach carries
severity `HIGH` or `MEDIUM` once any criterion fired (`NONE` only while
nothing fired) — the source's `CRITICAL`/`LOW` severities are unreachable.
-/

/-- Severity invariant of the criteria chain. -/
def FInv (st : FilterState) : Prop :=
  st.2.2 = "HIGH" ∨ st.2.2 = "MEDIUM" ∨ (st.1 = false ∧ st.2.2 = "NONE")

theorem finv_elapsed (r : TopSqlRow) (st : FilterState) (h : FInv st) :
    FInv (crit_elapsed r st) := by
  unfold crit_elapsed FInv at *
  split_ifs <;> simp_all

theorem finv_executions (r : TopSqlRow) (st : FilterState) (h : FInv st) :
    FInv (crit_executions r st) := by
  unfold crit_executions FInv at *
  split_ifs <;> simp_all

theorem finv_avg_elapsed (r : TopSqlRow) (st : FilterState) (h : FInv st) :
    FInv (crit_avg_elapsed r st) := by
  unfold crit_avg_elapsed FInv at *
  split_ifs <;> simp_all

theorem finv_cpu_pct (r : TopSqlRow) (st : FilterState) (h : FInv st) :
    FInv (crit_cpu_pct r st) := by
  unfold crit_cpu_pct FInv at *
  split_ifs <;> simp_all

theorem finv_workload (r : TopSqlRow) (st : FilterState) (h : FInv st) :
    FInv (crit_workload r st) := by
  unfold crit_workload FInv at *
  split_ifs <;> simp_all

theorem finv_io (r : TopSqlRow) (st : FilterState) (h : FInv st) :
    FInv (crit_io r st) := by
  unfold crit_io FInv at *
  split_ifs <;> simp_all

theorem finv_cpu_time (r : TopSqlRow) (st : FilterState) (h : FInv st) :
    FInv (crit_cpu_time r st) := by
  unfold crit_cpu_time FInv at *
  split_ifs <;> simp_all

theorem row_state_finv (r : TopSqlRow) : FInv (row_filter_state r) :=
  finv_cpu_time r _ (finv_io r _ (finv_workload r _ (finv_cpu_pct r _
    (finv_avg_elapsed r _ (finv_executions r _ (finv_elapsed r _
      (Or.inr (Or.inr ⟨rfl, rfl⟩))))))))

/-- Any finding the per-row evaluation emits has severity HIGH or MEDIUM. -/
theorem eval_row_severity (idx : ℕ) (r : TopSqlRow) (t : Option String)
    (f : Finding) (h : eval_row idx r t = some f) :
    f.severity = "HIGH" ∨ f.severity = "MEDIUM" := by
  unfold eval_row at h
  dsimp only at h
  split_ifs at h with hfired
  · cases h
    obtain h1 | h1 | ⟨h2, _⟩ := row_state_finv r
    · exact Or.inl h1
    · exact Or.inr h1
    · rw [h2] at hfired
      exact absurd hfired (by simp)

theorem mem_insert_finding_desc (x y : Finding) (l : List Finding) :
    y ∈ insert_finding_desc x l ↔ y = x ∨ y ∈ l := by
  induction l with
  | nil => simp [insert_finding_desc]
  | cons z zs ih =>
    unfold insert_finding_desc
    split_ifs
    · simp only [List.mem_cons]
    · simp only [List.mem_cons, ih]
      tauto

theorem mem_sort_foldl (l : List Finding) (acc : List Finding) (y : Finding) :
    y ∈ l.foldl (fun a x => insert_finding_desc x a) acc ↔ y ∈ l ∨ y ∈ acc := by
  induction l generalizing acc with
  | nil => simp
  | cons x xs ih =>
    simp only [List.foldl_cons, ih, mem_insert_finding_desc, List.mem_cons]
    tauto

theorem mem_sort_findings_desc (l : List Finding) (y : Finding) :
    y ∈ sort_findings_desc l ↔ y ∈ l := by
  unfold sort_findings_desc
  rw [mem_sort_foldl]
  simp

/-- Every sorted problematic candidate has severity HIGH or MEDIUM. -/
theorem sorted_candidate_severity (top : List TopSqlRow)
    (raw : List (Option String)) (f : Finding)
    (hf : f ∈ sort_findings_desc (problematic_candidates top raw)) :
    f.severity = "HIGH" ∨ f.severity = "MEDIUM" := by
  rw [mem_sort_findings_desc] at hf
  unfold problematic_candidates at hf
  rw [List.mem_filterMap] at hf
  obtain ⟨p, _, hp⟩ := hf
  exact eval_row_severity _ _ _ _ hp


/-- A row firing only the critical-elapsed clause (severity HIGH). -/
def rowC6H : TopSqlRow := { elapsed := 40 }

/-- A row firing only the medium-elapsed clause (severity MEDIUM). -/
def rowC6M : TopSqlRow := { elapsed := 15 }

/-- A weaker medium row (score below 40% of `rowC6H`). -/
def rowC6W : TopSqlRow := { elapsed := 12 }

/-- C6 (counterexample): with one HIGH and one MEDIUM candidate the filter
returns 2 findings even though exactly one of them is HIGH/CRITICAL — the
"return exactly 1" clause requires the second finding's severity to be
outside {HIGH, MEDIUM, CRITICAL}, which never happens. -/
theorem c6_findings_cardinality_counterexample :
    (filter_problematic_sql [rowC6H, rowC6M] []).map Finding.severity =
      ["HIGH", "MEDIUM"] ∧
    ((filter_problematic_sql [rowC6H, rowC6M] []).countP
      (fun f => f.severity == "HIGH" || f.severity == "CRITICAL")) = 1 ∧
    (filter_problematic_sql [rowC6H, rowC6M] []).length = 2 :=
  ⟨by decide, by decide, by decide⟩

/-- C6 (amended): the filter returns at most 3 findings, every returned
finding's severity is HIGH or MEDIUM (so the "only one HIGH" demotion rule
never fires), and with at least 3 candidates it returns exactly 2 when the
third-ranked score is below 40% of the first-ranked score and exactly 3
otherwise. -/
theorem c6_findings_cardinality (top : List TopSqlRow)
    (raw : List (Option String)) :
    (filter_problematic_sql top raw).length ≤ 3 ∧
    (∀ f ∈ filter_problematic_sql top raw,
      f.severity = "HIGH" ∨ f.severity = "MEDIUM") ∧
    (3 ≤ (sort_findings_desc (problematic_candidates top raw)).length →
      ((sort_findings_desc (problematic_candidates top raw)).getD 2 default).dba_score <
        ((sort_findings_desc (problematic_candidates top raw)).getD 0 default).dba_score *
          mkRat 2 5 →
      (filter_problematic_sql top raw).length = 2) ∧
    (3 ≤ (sort_findings_desc (problematic_candidates top raw)).length →
      ¬ (((sort_findings_desc (problematic_candidates top raw)).getD 2 default).dba_score <
        ((sort_findings_desc (problematic_candidates top raw)).getD 0 default).dba_score *
          mkRat 2 5) →
      (filter_problematic_sql top raw).length = 3) := by
  have hsub : ∀ f ∈ filter_problematic_sql top raw,
      f ∈ sort_findings_desc (problematic_candidates top raw) := by
    intro f hf
    unfold filter_problematic_sql at hf
    dsimp only at hf
    split_ifs at hf <;>
      first
        | exact absurd hf (List.not_mem_nil f)
        | exact List.take_subset _ _ hf
  refine ⟨?_, ?_, ?_, ?_⟩
  · unfold filter_problematic_sql
    dsimp only
    split_ifs <;> simp [List.length_take]
  · intro f hf
    exact sorted_candidate_severity top raw f (hsub f hf)
  · intro h3 hlt
    have hsev : ((sort_findings_desc (problematic_candidates top raw)).getD 1
        default).severity = "HIGH" ∨
        ((sort_findings_desc (problematic_candidates top raw)).getD 1
          default).severity = "MEDIUM" := by
      have h1 : 1 < (sort_findings_desc (problematic_candidates top raw)).length := by
        omega
      refine sorted_candidate_severity top raw _ ?_
      rw [List.getD_eq_getElem _ _ h1]
      exact List.getElem_mem h1
    unfold filter_problematic_sql
    dsimp only
    rw [if_neg (by omega)]
    have hmin : min 3 (sort_findings_desc (problematic_candidates top raw)).length = 3 := by
      omega
    rw [hmin]
    split_ifs with ha hb hc
    · exact absurd hb (by
        rintro ⟨-, -, hnot⟩
        exact hnot (hsev.elim Or.inl (fun h => Or.inr (Or.inl h))))
    · simp [List.length_take]
      omega
    · exact absurd ⟨rfl, by rw [qMul_eq]; exact hlt⟩ ha
    · exact absurd ⟨rfl, by rw [qMul_eq]; exact hlt⟩ ha
  · intro h3 hge
    have hsev : ((sort_findings_desc (problematic_candidates top raw)).getD 1
        default).severity = "HIGH" ∨
        ((sort_findings_desc (problematic_candidates top raw)).getD 1
          default).severity = "MEDIUM" := by
      have h1 : 1 < (sort_findings_desc (problematic_candidates top raw)).length := by
        omega
      refine sorted_candidate_severity top raw _ ?_
      rw [List.getD_eq_getElem _ _ h1]
      exact List.getElem_mem h1
    unfold filter_problematic_sql
    dsimp only
    rw [if_neg (by omega)]
    have hmin : min 3 (sort_findings_desc (problematic_candidates top raw)).length = 3 := by
      omega
    rw [hmin]
    split_ifs with ha hb hc
    · obtain ⟨-, hc2⟩ := ha
      rw [qMul_eq] at hc2
      exact absurd hc2 hge
    · obtain ⟨-, hc2⟩ := ha
      rw [qMul_eq] at hc2
      exact absurd hc2 hge
    · exact absurd hc (by
        rintro ⟨-, -, hnot⟩
        exact hnot (hsev.elim Or.inl (fun h => Or.inr (Or.inl h))))
    · simp [List.length_take]
      omega

/-- C6 witness: three candidates where the third scores below 40% of the
first — the filter returns exactly 2 findings. -/
theorem c6_findings_cardinality_witness :
    (filter_problematic_sql [rowC6H, rowC6M, rowC6W] []).length = 2 :=
  (c6_findings_cardinality [rowC6H, rowC6M, rowC6W] []).2.2.1 (by decide)
    (by rw [← qMul_eq]; decide)


/-!
C7: severity monotonicity.  Severity is monotone in `pctcpu` and in
`executions` (only criteria 3 and 4b read `executions`, and both only
upgrade a NONE severity), and the critical CPU-time / workload clauses
force HIGH.  But severity is **not** monotone in `elapsed`: a
MEDIUM-elapsed clause that fires first blocks the HIGH that critical
executions would otherwise assign, because `crit_executions` keeps any
earlier non-NONE severity.
-/

/-- Rank of a severity string: NONE/other 0, MEDIUM 1, HIGH 2. -/
def sevRank (s : String) : ℕ :=
  if s = "HIGH" then 2 else if s = "MEDIUM" then 1 else 0

theorem sevRank_le_two (s : String) : sevRank s ≤ 2 := by
  unfold sevRank
  split_ifs <;> omega

theorem stRank_cpu_pct (r : TopSqlRow) (st : FilterState) (h : FInv st) :
    sevRank (crit_cpu_pct r st).2.2 =
      if r.pctcpu ≥ HIGH_CPU_PERCENTAGE then 2
      else if r.pctcpu ≥ MEDIUM_CPU_PERCENTAGE then max 1 (sevRank st.2.2)
      else sevRank st.2.2 := by
  rcases h with h | h | ⟨_, h⟩ <;>
    (unfold crit_cpu_pct; split_ifs <;> simp_all [sevRank])

theorem stRank_workload (r : TopSqlRow) (st : FilterState) (h : FInv st) :
    sevRank (crit_workload r st).2.2 =
      if r.pcttotal ≥ CRITICAL_WORKLOAD_PCT then 2
      else if r.pcttotal ≥ HIGH_WORKLOAD_PCT then max 1 (sevRank st.2.2)
      else sevRank st.2.2 := by
  rcases h with h | h | ⟨_, h⟩ <;>
    (unfold crit_workload; split_ifs <;> simp_all [sevRank])

theorem stRank_io (r : TopSqlRow) (st : FilterState) (h : FInv st) :
    sevRank (crit_io r st).2.2 =
      if r.pctio ≥ 40 then max 1 (sevRank st.2.2)
      else sevRank st.2.2 := by
  rcases h with h | h | ⟨_, h⟩ <;>
    (unfold crit_io; split_ifs <;> simp_all [sevRank])

theorem stRank_cpu_time (r : TopSqlRow) (st : FilterState) (h : FInv st) :
    sevRank (crit_cpu_time r st).2.2 =
      if r.cpu ≥ CRITICAL_CPU_TIME then 2
      else if r.cpu ≥ HIGH_CPU_TIME ∧ r.elapsed > 30 then max 1 (sevRank st.2.2)
      else sevRank st.2.2 := by
  rcases h with h | h | ⟨_, h⟩ <;>
    (unfold crit_cpu_time; split_ifs <;> simp_all [sevRank])

theorem stRank_executions (r : TopSqlRow) (st : FilterState) (h : FInv st) :
    sevRank (crit_executions r st).2.2 =
      if r.executions ≥ CRITICAL_EXECUTIONS then
        (if sevRank st.2.2 = 0 then 2 else sevRank st.2.2)
      else if r.executions ≥ MEDIUM_EXECUTIONS ∧ r.elapsed > 10 then
        max 1 (sevRank st.2.2)
      else sevRank st.2.2 := by
  rcases h with h | h | ⟨_, h⟩ <;>
    (unfold crit_executions; split_ifs <;> simp_all [sevRank])

theorem stRank_avg_elapsed (r : TopSqlRow) (st : FilterState) (h : FInv st) :
    sevRank (crit_avg_elapsed r st).2.2 =
      if r.elapsed_per_exec ≥ CRITICAL_AVG_ELAPSED then 2
      else if r.elapsed_per_exec ≥ MEDIUM_AVG_ELAPSED ∧ r.executions > 50 then
        max 1 (sevRank st.2.2)
      else sevRank st.2.2 := by
  rcases h with h | h | ⟨_, h⟩ <;>
    (unfold crit_avg_elapsed; split_ifs <;> simp_all [sevRank])

/-- The criteria tail from criterion 5 on is monotone in the carried
severity rank when the two rows agree on every field the tail reads. -/
theorem sev_tail_mono (r1 r2 : TopSqlRow) (hpc : r1.pctcpu = r2.pctcpu)
    (hpt : r1.pcttotal = r2.pcttotal) (hpi : r1.pctio = r2.pctio)
    (hcp : r1.cpu = r2.cpu) (hel : r1.elapsed = r2.elapsed)
    (s1 s2 : FilterState) (h1 : FInv s1) (h2 : FInv s2)
    (h : sevRank s1.2.2 ≤ sevRank s2.2.2) :
    sevRank (crit_cpu_time r1 (crit_io r1 (crit_workload r1
        (crit_cpu_pct r1 s1)))).2.2 ≤
      sevRank (crit_cpu_time r2 (crit_io r2 (crit_workload r2
        (crit_cpu_pct r2 s2)))).2.2 := by
  have i1 : FInv (crit_cpu_pct r1 s1) := finv_cpu_pct _ _ h1
  have i2 : FInv (crit_cpu_pct r2 s2) := finv_cpu_pct _ _ h2
  have m1 : sevRank (crit_cpu_pct r1 s1).2.2 ≤ sevRank (crit_cpu_pct r2 s2).2.2 := by
    rw [stRank_cpu_pct _ _ h1, stRank_cpu_pct _ _ h2, hpc]
    have a1 := sevRank_le_two s1.2.2
    have a2 := sevRank_le_two s2.2.2
    split_ifs <;> omega
  have j1 : FInv (crit_workload r1 (crit_cpu_pct r1 s1)) := finv_workload _ _ i1
  have j2 : FInv (crit_workload r2 (crit_cpu_pct r2 s2)) := finv_workload _ _ i2
  have m2 : sevRank (crit_workload r1 (crit_cpu_pct r1 s1)).2.2 ≤
      sevRank (crit_workload r2 (crit_cpu_pct r2 s2)).2.2 := by
    rw [stRank_workload _ _ i1, stRank_workload _ _ i2, hpt]
    have a1 := sevRank_le_two (crit_cpu_pct r1 s1).2.2
    have a2 := sevRank_le_two (crit_cpu_pct r2 s2).2.2
    split_ifs <;> omega
  have k1 : FInv (crit_io r1 (crit_workload r1 (crit_cpu_pct r1 s1))) :=
    finv_io _ _ j1
  have k2 : FInv (crit_io r2 (crit_workload r2 (crit_cpu_pct r2 s2))) :=
    finv_io _ _ j2
  have m3 : sevRank (crit_io r1 (crit_workload r1 (crit_cpu_pct r1 s1))).2.2 ≤
      sevRank (crit_io r2 (crit_workload r2 (crit_cpu_pct r2 s2))).2.2 := by
    rw [stRank_io _ _ j1, stRank_io _ _ j2, hpi]
    have a1 := sevRank_le_two (crit_workload r1 (crit_cpu_pct r1 s1)).2.2
    have a2 := sevRank_le_two (crit_workload r2 (crit_cpu_pct r2 s2)).2.2
    split_ifs <;> omega
  rw [stRank_cpu_time _ _ k1, stRank_cpu_time _ _ k2, hcp, hel]
  have a1 := sevRank_le_two (crit_io r1 (crit_workload r1 (crit_cpu_pct r1 s1))).2.2
  have a2 := sevRank_le_two (crit_io r2 (crit_workload r2 (crit_cpu_pct r2 s2))).2.2
  split_ifs <;> omega

/-- A row with critical executions and low elapsed: severity HIGH. -/
def rowC7a : TopSqlRow := { executions := 600, elapsed := 5 }

/-- The same row with elapsed raised past the MEDIUM threshold: the
medium-elapsed clause now fires first and critical executions no longer
upgrade the severity. -/
def rowC7b : TopSqlRow := { executions := 600, elapsed := 15 }

/-- C7 (counterexample): raising only `elapsed` from 5 s to 15 s (past the
10 s filter threshold) demotes the assigned severity from HIGH to MEDIUM,
even though the row still triggers the critical-executions clause whose
table severity is HIGH. -/
theorem c7_severity_monotonicity_counterexample :
    rowC7b = { rowC7a with elapsed := 15 } ∧
    rowC7a.elapsed < rowC7b.elapsed ∧
    row_severity rowC7a = "HIGH" ∧
    row_severity rowC7b = "MEDIUM" ∧
    sevRank (row_severity rowC7b) < sevRank (row_severity rowC7a) :=
  ⟨rfl, by decide, by decide, by decide, by decide⟩

/-- C7 (amended): severity is monotone when raising `pctcpu` (others
fixed) and when raising `executions` (others fixed), and the critical
CPU-time and critical-workload clauses always force HIGH; but
monotonicity in `elapsed` fails (see the counterexample). -/
theorem c7_severity_monotonicity (r : TopSqlRow) (q1 q2 : ℚ) (n1 n2 : ℤ)
    (hq : q1 ≤ q2) (hn : n1 ≤ n2) :
    sevRank (row_severity { r with pctcpu := q1 }) ≤
      sevRank (row_severity { r with pctcpu := q2 }) ∧
    sevRank (row_severity { r with executions := n1 }) ≤
      sevRank (row_severity { r with executions := n2 }) ∧
    (r.cpu ≥ CRITICAL_CPU_TIME → row_severity r = "HIGH") ∧
    (r.pcttotal ≥ CRITICAL_WORKLOAD_PCT → row_severity r = "HIGH") := by
  refine ⟨?_, ?_, ?_, ?_⟩
  · have hpre : crit_avg_elapsed { r with pctcpu := q1 }
        (crit_executions { r with pctcpu := q1 }
          (crit_elapsed { r with pctcpu := q1 } (false, [], "NONE"))) =
        crit_avg_elapsed { r with pctcpu := q2 }
          (crit_executions { r with pctcpu := q2 }
            (crit_elapsed { r with pctcpu := q2 } (false, [], "NONE"))) := rfl
    have hSinv : FInv (crit_avg_elapsed { r with pctcpu := q2 }
        (crit_executions { r with pctcpu := q2 }
          (crit_elapsed { r with pctcpu := q2 } (false, [], "NONE")))) :=
      finv_avg_elapsed _ _ (finv_executions _ _ (finv_elapsed _ _
        (Or.inr (Or.inr ⟨rfl, rfl⟩))))
    set S := crit_avg_elapsed { r with pctcpu := q2 }
      (crit_executions { r with pctcpu := q2 }
        (crit_elapsed { r with pctcpu := q2 } (false, [], "NONE"))) with hSdef
    have hb0 := sevRank_le_two S.2.2
    have m1 : sevRank (crit_cpu_pct { r with pctcpu := q1 } S).2.2 ≤
        sevRank (crit_cpu_pct { r with pctcpu := q2 } S).2.2 := by
      rw [stRank_cpu_pct _ _ hSinv, stRank_cpu_pct _ _ hSinv]
      rw [show ({ r with pctcpu := q1 } : TopSqlRow).pctcpu = q1 from rfl,
        show ({ r with pctcpu := q2 } : TopSqlRow).pctcpu = q2 from rfl]
      split_ifs <;> first | omega | (exfalso; linarith)
    have hi1 : FInv (crit_cpu_pct { r with pctcpu := q1 } S) := finv_cpu_pct _ _ hSinv
    have hi2 : FInv (crit_cpu_pct { r with pctcpu := q2 } S) := finv_cpu_pct _ _ hSinv
    have hb1 := sevRank_le_two (crit_cpu_pct { r with pctcpu := q1 } S).2.2
    have hb2 := sevRank_le_two (crit_cpu_pct { r with pctcpu := q2 } S).2.2
    have m2 : sevRank (crit_workload { r with pctcpu := q1 }
        (crit_cpu_pct { r with pctcpu := q1 } S)).2.2 ≤
        sevRank (crit_workload { r with pctcpu := q2 }
          (crit_cpu_pct { r with pctcpu := q2 } S)).2.2 := by
      rw [stRank_workload _ _ hi1, stRank_workload _ _ hi2]
      rw [show ({ r with pctcpu := q1 } : TopSqlRow).pcttotal = r.pcttotal from rfl,
        show ({ r with pctcpu := q2 } : TopSqlRow).pcttotal = r.pcttotal from rfl]
      split_ifs <;> omega
    have hj1 : FInv (crit_workload { r with pctcpu := q1 }
        (crit_cpu_pct { r with pctcpu := q1 } S)) := finv_workload _ _ hi1
    have hj2 : FInv (crit_workload { r with pctcpu := q2 }
        (crit_cpu_pct { r with pctcpu := q2 } S)) := finv_workload _ _ hi2
    have hb3 := sevRank_le_two (crit_workload { r with pctcpu := q1 }
      (crit_cpu_pct { r with pctcpu := q1 } S)).2.2
    have hb4 := sevRank_le_two (crit_workload { r with pctcpu := q2 }
      (crit_cpu_pct { r with pctcpu := q2 } S)).2.2
    have m3 : sevRank (crit_io { r with pctcpu := q1 }
        (crit_workload { r with pctcpu := q1 }
          (crit_cpu_pct { r with pctcpu := q1 } S))).2.2 ≤
        sevRank (crit_io { r with pctcpu := q2 }
          (crit_workload { r with pctcpu := q2 }
            (crit_cpu_pct { r with pctcpu := q2 } S))).2.2 := by
      rw [stRank_io _ _ hj1, stRank_io _ _ hj2]
      rw [show ({ r with pctcpu := q1 } : TopSqlRow).pctio = r.pctio from rfl,
        show ({ r with pctcpu := q2 } : TopSqlRow).pctio = r.pctio from rfl]
      split_ifs <;> omega
    have hk1 : FInv (crit_io { r with pctcpu := q1 }
        (crit_workload { r with pctcpu := q1 }
          (crit_cpu_pct { r with pctcpu := q1 } S))) := finv_io _ _ hj1
    have hk2 : FInv (crit_io { r with pctcpu := q2 }
        (crit_workload { r with pctcpu := q2 }
          (crit_cpu_pct { r with pctcpu := q2 } S))) := finv_io _ _ hj2
    have hb5 := sevRank_le_two (crit_io { r with pctcpu := q1 }
      (crit_workload { r with pctcpu := q1 }
        (crit_cpu_pct { r with pctcpu := q1 } S))).2.2
    have hb6 := sevRank_le_two (crit_io { r with pctcpu := q2 }
      (crit_workload { r with pctcpu := q2 }
        (crit_cpu_pct { r with pctcpu := q2 } S))).2.2
    have m4 : sevRank (crit_cpu_time { r with pctcpu := q1 }
        (crit_io { r with pctcpu := q1 }
          (crit_workload { r with pctcpu := q1 }
            (crit_cpu_pct { r with pctcpu := q1 } S)))).2.2 ≤
        sevRank (crit_cpu_time { r with pctcpu := q2 }
          (crit_io { r with pctcpu := q2 }
            (crit_workload { r with pctcpu := q2 }
              (crit_cpu_pct { r with pctcpu := q2 } S)))).2.2 := by
      rw [stRank_cpu_time _ _ hk1, stRank_cpu_time _ _ hk2]
      rw [show ({ r with pctcpu := q1 } : TopSqlRow).cpu = r.cpu from rfl,
        show ({ r with pctcpu := q2 } : TopSqlRow).cpu = r.cpu from rfl,
        show ({ r with pctcpu := q1 } : TopSqlRow).elapsed = r.elapsed from rfl,
        show ({ r with pctcpu := q2 } : TopSqlRow).elapsed = r.elapsed from rfl]
      split_ifs <;> omega
    unfold row_severity row_filter_state
    rw [hpre, ← hSdef]
    exact m4
  · have hpre2 : crit_elapsed { r with executions := n1 } (false, [], "NONE") =
        crit_elapsed { r with executions := n2 } (false, [], "NONE") := rfl
    have hS0 : FInv (crit_elapsed { r with executions := n2 } (false, [], "NONE")) :=
      finv_elapsed _ _ (Or.inr (Or.inr ⟨rfl, rfl⟩))
    set S0 := crit_elapsed { r with executions := n2 } (false, [], "NONE") with hS0def
    have hb := sevRank_le_two S0.2.2
    have m1 : sevRank (crit_executions { r with executions := n1 } S0).2.2 ≤
        sevRank (crit_executions { r with executions := n2 } S0).2.2 := by
      rw [stRank_executions _ _ hS0, stRank_executions _ _ hS0]
      rw [show ({ r with executions := n1 } : TopSqlRow).executions = n1 from rfl,
        show ({ r with executions := n2 } : TopSqlRow).executions = n2 from rfl,
        show ({ r with executions := n1 } : TopSqlRow).elapsed = r.elapsed from rfl,
        show ({ r with executions := n2 } : TopSqlRow).elapsed = r.elapsed from rfl]
      by_cases he : r.elapsed > (10 : ℚ)
      · simp only [he, and_true]
        split_ifs <;> omega
      · simp only [he, and_false, if_false]
        split_ifs <;> omega
    have hpreS : FInv (crit_executions { r with executions := n1 } S0) :=
      finv_executions _ _ hS0
    have hpreS2 : FInv (crit_executions { r with executions := n2 } S0) :=
      finv_executions _ _ hS0
    have m2 : sevRank (crit_avg_elapsed { r with executions := n1 }
        (crit_executions { r with executions := n1 } S0)).2.2 ≤
        sevRank (crit_avg_elapsed { r with executions := n2 }
          (crit_executions { r with executions := n2 } S0)).2.2 := by
      rw [stRank_avg_elapsed _ _ hpreS, stRank_avg_elapsed _ _ hpreS2]
      rw [show ({ r with executions := n1 } : TopSqlRow).elapsed_per_exec =
            r.elapsed_per_exec from rfl,
        show ({ r with executions := n2 } : TopSqlRow).elapsed_per_exec =
          r.elapsed_per_exec from rfl,
        show ({ r with executions := n1 } : TopSqlRow).executions = n1 from rfl,
        show ({ r with executions := n2 } : TopSqlRow).executions = n2 from rfl]
      have b1 := sevRank_le_two (crit_executions { r with executions := n1 } S0).2.2
      have b2 := sevRank_le_two (crit_executions { r with executions := n2 } S0).2.2
      by_cases h1 : r.elapsed_per_exec ≥ CRITICAL_AVG_ELAPSED
      · simp only [h1, if_true]
        omega
      · by_cases h2 : r.elapsed_per_exec ≥ MEDIUM_AVG_ELAPSED
        · simp only [h1, h2, if_false, true_and]
          split_ifs <;> omega
        · simp only [h1, h2, if_false, false_and]
          exact m1
    have tail := sev_tail_mono { r with executions := n1 } { r with executions := n2 }
      rfl rfl rfl rfl rfl _ _
      (finv_avg_elapsed _ _ hpreS) (finv_avg_elapsed _ _ hpreS2) m2
    unfold row_severity row_filter_state
    rw [hpre2, ← hS0def]
    exact tail
  · intro hc
    unfold row_severity row_filter_state crit_cpu_time
    rw [if_pos hc]
  · intro hw
    unfold row_severity row_filter_state
    have hw2 : (crit_workload r (crit_cpu_pct r (crit_avg_elapsed r
        (crit_executions r (crit_elapsed r (false, [], "NONE")))))).2.2 = "HIGH" := by
      unfold crit_workload
      rw [if_pos hw]
    have hio : ∀ st : FilterState, st.2.2 = "HIGH" → (crit_io r st).2.2 = "HIGH" := by
      intro st hst
      unfold crit_io
      split_ifs <;> simp_all
    have hct : ∀ st : FilterState, st.2.2 = "HIGH" →
        (crit_cpu_time r st).2.2 = "HIGH" := by
      intro st hst
      unfold crit_cpu_time
      split_ifs <;> simp_all
    exact hct _ (hio _ hw2)

/-- C7 witness: raising `pctcpu` from 0 to 60 and `executions` from 0 to
600 on an otherwise-empty row. -/
theorem c7_severity_monotonicity_witness :
    sevRank (row_severity { ({} : TopSqlRow) with pctcpu := 0 }) ≤
      sevRank (row_severity { ({} : TopSqlRow) with pctcpu := 60 }) ∧
    sevRank (row_severity { ({} : TopSqlRow) with executions := 0 }) ≤
      sevRank (row_severity { ({} : TopSqlRow) with executions := 600 }) :=
  ⟨(c7_severity_monotonicity {} 0 60 0 600 (by norm_num) (by norm_num)).1,
   (c7_severity_monotonicity {} 0 60 0 600 (by norm_num) (by norm_num)).2.1⟩

end DBG
